import Mathlib

/-! Prediction view (`client/src/components/Prediction.jsx`)

A shallow embedding of the logic of the `Prediction` component: the
manual-entry payload builder inside `handleManualPredict`, the two request
handlers, `getAttackColor`, and the result renderer.

Conventions of the embedding

* A JavaScript Number is a `JSNum`: `NaN`, the two infinities, `-0`, or a
  finite value carried as a rational (`fin 0` is `+0`).
* A plain JavaScript object with string keys is a `JSObject`: a list of
  key/value pairs in insertion order; a missing property (`undefined`) is
  `none`.
* `Date.now()` and `toLocaleTimeString` are read from an `Env`; the result of
  `fetch` is an input of the handler (`FetchOutcome`).
* A JSON request body is held as the JSON object its text denotes
  (`jsonStringify`): a Number is written as a JSON number when it is finite and
  as `null` otherwise.
-/

namespace Prediction

/-! ## JavaScript numbers -/

/-- A JavaScript Number value. `fin q` with `q = 0` is `+0`. -/
inductive JSNum where
  | nan
  | posInf
  | negInf
  | negZero
  | fin (q : ℚ)
  deriving DecidableEq

namespace JSNum

/-- The Number `+0`, written `0` in the source. -/
def zero : JSNum := fin 0

/-- The predicate `Number.isNaN`. -/
def isNaN : JSNum → Bool
  | nan => true
  | _ => false

/-- The abstract operation `ToBoolean` on Numbers: `+0`, `-0` and `NaN` are falsy. -/
def truthy : JSNum → Bool
  | nan => false
  | negZero => false
  | fin q => decide (q ≠ 0)
  | _ => true

/-- Unary minus on the unsigned values produced by the literal parser. -/
def neg : JSNum → JSNum
  | nan => nan
  | posInf => negInf
  | negInf => posInf
  | negZero => fin 0
  | fin q => if q = 0 then negZero else fin (-q)

/-- The predicate `Number.isFinite`. -/
def isFinite : JSNum → Bool
  | nan => false
  | posInf => false
  | negInf => false
  | _ => true

/-- The Number with an integer value, for the integers a Number holds exactly (a time
value, a row index). -/
def ofInt (z : Int) : JSNum := fin z

end JSNum

/-- The expression `a || b` where `a` may be `undefined` (`none`) or a Number. -/
def jsOr (a : Option JSNum) (b : JSNum) : JSNum :=
  match a with
  | some x => if x.truthy then x else b
  | none => b

/-! ## `parseFloat` -/

/-- The code points of `WhiteSpace` and `LineTerminator`, stripped by `TrimString`. -/
def isStrWhiteSpaceChar (c : Char) : Bool :=
  let n := c.toNat
  n = 0x09 || n = 0x0A || n = 0x0B || n = 0x0C || n = 0x0D || n = 0x20 || n = 0xA0 ||
  n = 0x1680 || (0x2000 ≤ n && n ≤ 0x200A) || n = 0x2028 || n = 0x2029 || n = 0x202F ||
  n = 0x205F || n = 0x3000 || n = 0xFEFF

/-- The numeric value of a run of decimal digits. -/
def digitsValue (ds : List Char) : Nat :=
  ds.foldl (fun acc d => 10 * acc + (d.toNat - '0'.toNat)) 0

/-- The position of the highest set bit of `n`: `⌊log₂ n⌋` for `n > 0`, and `0` for
`n = 0`. The first argument bounds the number of halvings. -/
def log2Floor : Nat → Nat → Nat
  | 0, _ => 0
  | fuel + 1, n => if 2 ≤ n then log2Floor fuel (n / 2) + 1 else 0

/-- The double nearest to a non-negative rational `n / d` (round to nearest, ties to
even, 53-bit significand, gradual underflow, overflow to `Infinity`). -/
def roundToDouble (n d : Nat) : JSNum :=
  if n = 0 ∨ d = 0 then .fin 0 else
    -- `e0 ≤ log2 (n/d) < e0 + 2`
    let e0 : Int := (log2Floor n n : Int) - (log2Floor d d : Int) - 1
    let ge (e : Int) : Bool := decide (d * 2 ^ e.toNat ≤ n * 2 ^ (-e).toNat)
    let e : Int := if ge (e0 + 1) then e0 + 1 else e0
    let e : Int := max e (-1022)
    -- unit in the last place is `2 ^ (e - 52)`
    let k : Int := e - 52
    let num := n * 2 ^ (-k).toNat
    let den := d * 2 ^ k.toNat
    let q := num / den
    let r := num % den
    let m := if 2 * r < den then q else if 2 * r > den then q + 1 else if q % 2 = 0 then q else q + 1
    if (log2Floor m m : Int) + k ≥ 1024 then .posInf
    else .fin (mkRat (m * 2 ^ k.toNat) (2 ^ (-k).toNat))

/-- The double nearest to a rational of either sign; a negative value that rounds to
zero gives `-0`. -/
def roundRat (q : ℚ) : JSNum :=
  if 0 ≤ q then roundToDouble q.num.toNat q.den
  else (roundToDouble (-q.num).toNat q.den).neg

/-- The sum `a + b` of two Numbers (`Number::add`): `NaN` is contagious, opposite
infinities give `NaN`, `-0 + -0` is `-0`, and a finite sum is the exact sum rounded to
the nearest double. -/
def jsAdd : JSNum → JSNum → JSNum
  | .nan, _ => .nan
  | _, .nan => .nan
  | .posInf, .negInf => .nan
  | .negInf, .posInf => .nan
  | .posInf, _ => .posInf
  | _, .posInf => .posInf
  | .negInf, _ => .negInf
  | _, .negInf => .negInf
  | .negZero, .negZero => .negZero
  | .negZero, .fin b => .fin b
  | .fin a, .negZero => .fin a
  | .fin a, .fin b => roundRat (a + b)

/-- The optional `ExponentPart` at the head of `cs`: its value when `cs` starts with
`e` or `E`, an optional sign and at least one digit; `0` otherwise. -/
def parseExponent (cs : List Char) : Int :=
  match cs with
  | c :: rest =>
    if c = 'e' ∨ c = 'E' then
      let (neg, rest) :=
        match rest with
        | '+' :: r => (false, r)
        | '-' :: r => (true, r)
        | r => (false, r)
      let ds := rest.takeWhile Char.isDigit
      if ds.isEmpty then 0
      else if neg then -(digitsValue ds : Int) else (digitsValue ds : Int)
    else 0
  | [] => 0

/-- The value of the longest prefix of `cs` that is a `StrUnsignedDecimalLiteral`,
or `NaN` when no prefix is one. -/
def parseUnsigned (cs : List Char) : JSNum :=
  if "Infinity".toList.isPrefixOf cs then .posInf else
    let intDs := cs.takeWhile Char.isDigit
    let rest := cs.dropWhile Char.isDigit
    let (fracDs, rest) :=
      match rest with
      | '.' :: r =>
        let fs := r.takeWhile Char.isDigit
        -- `. DecimalDigits` needs a digit when there is no integer part
        if intDs.isEmpty ∧ fs.isEmpty then ([], rest) else (fs, r.dropWhile Char.isDigit)
      | r => ([], r)
    if intDs.isEmpty ∧ fracDs.isEmpty then .nan else
      let mant := digitsValue (intDs ++ fracDs)
      let ex : Int := parseExponent rest - (fracDs.length : Int)
      roundToDouble (mant * 10 ^ ex.toNat) (10 ^ (-ex).toNat)

/-- The global function `parseFloat` applied to a string. -/
def parseFloat (s : String) : JSNum :=
  match s.toList.dropWhile isStrWhiteSpaceChar with
  | '+' :: cs => parseUnsigned cs
  | '-' :: cs => (parseUnsigned cs).neg
  | cs => parseUnsigned cs

/-! ## Field-name conversion -/

/-- The class `\w` of a regular expression without flags: `[A-Za-z0-9_]`. -/
def isWordChar (c : Char) : Bool := c.isAlphanum || c = '_'

/-- The call `.replace(/_/g, ' ')`. -/
def replaceUnderscores (cs : List Char) : List Char :=
  cs.map (fun c => if c = '_' then ' ' else c)

/-- The call `.replace(/\b\w/g, l => l.toUpperCase())`: every word character that is
not preceded by a word character is upper-cased. `prevWord` tells whether the
character before the head of the list is a word character. -/
def upcaseWordStarts : Bool → List Char → List Char
  | _, [] => []
  | prevWord, c :: cs =>
    (if isWordChar c && !prevWord then c.toUpper else c) :: upcaseWordStarts (isWordChar c) cs

/-- The expression `feature.name.replace(/_/g, ' ').replace(/\b\w/g, l => l.toUpperCase())`. -/
def apiFieldName (name : String) : String :=
  String.mk (upcaseWordStarts false (replaceUnderscores name.toList))

/-! ## Plain objects -/

/-- A plain object with string keys, as its own properties in insertion order. -/
abbrev JSObject (α : Type) := List (String × α)

namespace JSObject

/-- The property read `o[k]`; `none` is `undefined`. -/
def get {α : Type} (o : JSObject α) (k : String) : Option α :=
  (o.find? (fun p => p.1 == k)).map Prod.snd

/-- The property write `o[k] = v`: an existing property keeps its place. -/
def set {α : Type} : JSObject α → String → α → JSObject α
  | [], k, v => [(k, v)]
  | (k', v') :: rest, k, v => if k' = k then (k', v) :: rest else (k', v') :: set rest k v

/-- The keys of the object, `Object.keys(o)`. -/
def keys {α : Type} (o : JSObject α) : List String := o.map Prod.fst

/-- A conditional property write: `o[k] = v` when a value is given, nothing otherwise. -/
def writeOpt {α : Type} (o : JSObject α) (k : String) : Option α → JSObject α
  | some v => set o k v
  | none => o

/-- The object spread `{ ...a, ...b }`. -/
def spread {α : Type} (a b : JSObject α) : JSObject α :=
  b.foldl (fun acc p => set acc p.1 p.2) a

end JSObject

/-! ## `JSON.stringify` of a flat object of Numbers -/

/-- The value of a member of the JSON text that `JSON.stringify` writes for an object
whose properties are Numbers: a JSON number, or `null`. -/
inductive JsonValue where
  | null
  | number (q : ℚ)
  deriving DecidableEq

/-- What `JSON.stringify` writes for a Number (`SerializeJSONProperty`): the number
itself when it is finite (`-0` is written `0`), and `null` for `NaN` and the
infinities. -/
def serializeNumber : JSNum → JsonValue
  | .fin q => .number q
  | .negZero => .number 0
  | .nan => .null
  | .posInf => .null
  | .negInf => .null

/-- The call `JSON.stringify(o)` for an object whose properties are Numbers, as the JSON
object its text denotes: one member per property, in property order (the keys of the
payload are never array indices, so that is insertion order). -/
def jsonStringify (o : JSObject JSNum) : JSObject JsonValue :=
  o.map (fun p => (p.1, serializeNumber p.2))

/-! ## The manual-entry payload builder (`handleManualPredict`, first half) -/

/-- A feature descriptor of the manual form. -/
structure Feature where
  name : String
  label : String
  placeholder : String
  deriving DecidableEq

/-- The constant `featureGroups`. -/
def featureGroups : JSObject (List Feature) :=
  [ ("Flow Features",
      [ { name := "flow_duration", label := "Flow Duration", placeholder := "e.g., 0.5" },
        { name := "flow_bytes_s", label := "Flow Bytes/s", placeholder := "e.g., 1024" },
        { name := "flow_packets_s", label := "Flow Packets/s", placeholder := "e.g., 100" } ]),
    ("Packet Features",
      [ { name := "total_fwd_packets", label := "Total Fwd Packets", placeholder := "e.g., 10" },
        { name := "total_bwd_packets", label := "Total Bwd Packets", placeholder := "e.g., 8" },
        { name := "packet_length_mean", label := "Packet Length Mean", placeholder := "e.g., 512" } ]),
    ("Flag Features",
      [ { name := "syn_flag_count", label := "SYN Flag Count", placeholder := "e.g., 1" },
        { name := "ack_flag_count", label := "ACK Flag Count", placeholder := "e.g., 1" },
        { name := "psh_flag_count", label := "PSH Flag Count", placeholder := "e.g., 0" } ]) ]

/-- The expression `parseFloat(value) || 0`. -/
def parsedOrZero (value : String) : JSNum :=
  jsOr (some (parseFloat value)) JSNum.zero

/-- The body of the inner `features.forEach` callback: the update of `apiData` for one
feature descriptor. -/
def addFeature (formData : JSObject String) (apiData : JSObject JSNum) (feature : Feature) :
    JSObject JSNum :=
  match formData.get feature.name with
  | some value =>
    if value ≠ "" then apiData.set (apiFieldName feature.name) (parsedOrZero value)
    else apiData
  | none => apiData

/-- The object `apiData` after the loop over `Object.entries(featureGroups)`. -/
def buildApiData (formData : JSObject String) : JSObject JSNum :=
  featureGroups.foldl
    (fun apiData entry => entry.2.foldl (addFeature formData) apiData) []

/-- The object literal `defaultFields`. -/
def defaultFields (apiData : JSObject JSNum) : JSObject JSNum :=
  [ ("Destination Port", JSNum.zero),
    ("Flow Duration", jsOr (apiData.get "Flow Duration") JSNum.zero),
    ("Total Fwd Packets", jsOr (apiData.get "Total Fwd Packets") JSNum.zero),
    ("Total Backward Packets", jsOr (apiData.get "Total Bwd Packets") JSNum.zero),
    ("Flow Bytes/s", jsOr (apiData.get "Flow Bytes S") JSNum.zero),
    ("Flow Packets/s", jsOr (apiData.get "Flow Packets S") JSNum.zero),
    ("Packet Length Mean", jsOr (apiData.get "Packet Length Mean") JSNum.zero),
    ("SYN Flag Count", jsOr (apiData.get "Syn Flag Count") JSNum.zero),
    ("ACK Flag Count", jsOr (apiData.get "Ack Flag Count") JSNum.zero),
    ("PSH Flag Count", jsOr (apiData.get "Psh Flag Count") JSNum.zero) ]

/-- The object `finalData = { ...defaultFields, ...apiData }` built from the form values. -/
def finalData (formData : JSObject String) : JSObject JSNum :=
  let apiData := buildApiData formData
  JSObject.spread (defaultFields apiData) apiData

/-- The feature descriptors of all groups, in the order the loops visit them. -/
def catalogue : List Feature := (featureGroups.map Prod.snd).flatten

/-- What the form holds for a field at submission: `some value` when
`formData[name]` is neither `undefined` nor the empty string. -/
def filled (formData : JSObject String) (name : String) : Option String :=
  match formData.get name with
  | some value => if value ≠ "" then some value else none
  | none => none

/-! ## Endpoint configuration (`client/src/config/api.js`) -/

/-- The constant `API_BASE_URL`. -/
def API_BASE_URL : String := "https://cuddly-guide-74x9qjqx76v3r76p-5000.app.github.dev"

/-- The entry `API_ENDPOINTS.PREDICT`. -/
def API_ENDPOINTS_PREDICT : String := API_BASE_URL ++ "/predict"

/-- The entry `API_ENDPOINTS.PREDICT_CSV`. -/
def API_ENDPOINTS_PREDICT_CSV : String := API_BASE_URL ++ "/predict_csv"

/-! ## Attack types and severity colours -/

/-- An entry of the attack-type catalogue. -/
structure AttackType where
  name : String
  color : String
  deriving DecidableEq

/-- The constant `attackTypes`, keyed by the integer class label. -/
def attackTypes : List (Int × AttackType) :=
  [ (0, { name := "BENIGN", color := "green" }),
    (1, { name := "Bot", color := "orange" }),
    (2, { name := "DDoS", color := "red" }),
    (3, { name := "DoS GoldenEye", color := "red" }),
    (4, { name := "DoS Hulk", color := "red" }),
    (5, { name := "DoS Slowhttptest", color := "red" }),
    (6, { name := "DoS Slowloris", color := "red" }),
    (7, { name := "FTP-Patator", color := "orange" }),
    (8, { name := "Heartbleed", color := "purple" }),
    (9, { name := "Infiltration", color := "purple" }),
    (10, { name := "PortScan", color := "yellow" }),
    (11, { name := "SSH-Patator", color := "orange" }),
    (12, { name := "Web Attack - Brute Force", color := "red" }),
    (13, { name := "Web Attack - SQL Injection", color := "red" }),
    (14, { name := "Web Attack - XSS", color := "red" }) ]

/-- The property read `attackTypes[label]` for an integer label; `none` is `undefined`. -/
def attackTypesGet (label : Int) : Option AttackType :=
  (attackTypes.find? (fun p => p.1 == label)).map Prod.snd

/-- The object `colors` local to `getAttackColor`. -/
def colors : JSObject String :=
  [ ("green", "text-green-400 bg-green-400/10 border-green-400/20"),
    ("yellow", "text-yellow-400 bg-yellow-400/10 border-yellow-400/20"),
    ("orange", "text-orange-400 bg-orange-400/10 border-orange-400/20"),
    ("red", "text-red-400 bg-red-400/10 border-red-400/20"),
    ("purple", "text-purple-400 bg-purple-400/10 border-purple-400/20") ]

/-- The expression `a || b` on values that are strings or `undefined` (`none`): the
empty string and `undefined` are falsy. -/
def strOr (a b : Option String) : Option String :=
  match a with
  | some s => if s ≠ "" then some s else b
  | none => b

/-- The function `getAttackColor`: `colors[attackTypes[label]?.color] || colors.green`.
The property read `colors[undefined]` is the read of the key `"undefined"`. -/
def getAttackColor (label : Int) : Option String :=
  let color : Option String := (attackTypesGet label).map AttackType.color
  let key : String := match color with
    | some c => c
    | none => "undefined"
  strOr (colors.get key) (colors.get "green")

/-! ## View state, requests and responses -/

/-- A `File` picked in the upload control. -/
structure File where
  name : String
  type : String
  size : Nat
  deriving DecidableEq

/-- The state variable `inputMode`. -/
inductive InputMode where
  | manual
  | csv
  deriving DecidableEq

/-- A prediction record of the result list. A manual record has `type` and
`timestamp`, a CSV record has `row`; an absent property is `none`. -/
structure PredictionRecord where
  id : JSNum
  type : Option String
  row : Option Int
  result : String
  confidence : JSNum
  label : Int
  timestamp : Option String
  deriving DecidableEq

/-- The state of the `Prediction` component: its five `useState` variables. -/
structure ViewState where
  inputMode : InputMode
  formData : JSObject String
  csvFile : Option File
  predictions : List PredictionRecord
  isLoading : Bool
  deriving DecidableEq

/-- A thrown value: an `Error` made by the handler, or the rejection reason of
`fetch` or of `response.json()`. -/
inductive JSError where
  | error (message : String)
  | rejection (reason : String)
  deriving DecidableEq

/-- The body of a request: a JSON text, held as the JSON object it denotes, or a
multipart form. -/
inductive RequestBody where
  | json (document : JSObject JsonValue)
  | formData (fields : List (String × File))
  deriving DecidableEq

/-- The arguments of a `fetch` call. -/
structure Request where
  url : String
  method : String
  headers : List (String × String)
  body : RequestBody
  deriving DecidableEq

/-- What a handler does to the outside: requests, console output, alerts. -/
inductive Effect where
  | fetch (request : Request)
  | consoleError (label : String) (error : JSError)
  | alert (message : String)
  deriving DecidableEq

/-- A `Response`: its `ok` flag, its status, and what `response.json()` settles to.
The flag `ok` is true exactly for a status in the range 200 to 299. -/
structure Response (R : Type) where
  ok : Bool
  status : Nat
  json : Except JSError R
  ok_iff : ok = true ↔ 200 ≤ status ∧ status ≤ 299

/-- How the promise returned by `fetch` settles. -/
inductive FetchOutcome (R : Type) where
  | rejected (reason : JSError)
  | resolved (response : Response R)

/-- The JSON body of a `/predict` response. -/
structure PredictResult where
  attack_type : String
  confidence : JSNum
  label : Int
  deriving DecidableEq

/-- An element of `results` in a `/predict_csv` response, as `response.json()` returns
it; `row` and `label` are integer Numbers. -/
structure CsvResultItem where
  row : Int
  attack_type : String
  confidence : JSNum
  label : Int
  deriving DecidableEq

/-- The JSON body of a `/predict_csv` response. -/
structure CsvResult where
  results : List CsvResultItem
  deriving DecidableEq

/-- The clock and the locale: `clock n` is what the `n`-th reading of the current
time returns (a time value: an integer number of milliseconds), `toLocaleTimeString`
formats a time. -/
structure Env where
  clock : Nat → Int
  toLocaleTimeString : Int → String

/-- The component state together with the effects emitted so far and the number of
clock readings made so far. -/
structure World where
  view : ViewState
  effects : List Effect
  ticks : Nat
  deriving DecidableEq

/-- Handler code: it may throw a `JSError`, and state changes made before a throw stay. -/
abbrev Handler := ExceptT JSError (StateM World)

/-- The state setter `setIsLoading`. -/
def setIsLoading (b : Bool) : Handler Unit :=
  modify fun w => { w with view := { w.view with isLoading := b } }

/-- The state setter `setPredictions`. -/
def setPredictions (ps : List PredictionRecord) : Handler Unit :=
  modify fun w => { w with view := { w.view with predictions := ps } }

/-- Record an effect. -/
def emit (e : Effect) : Handler Unit :=
  modify fun w => { w with effects := w.effects ++ [e] }

/-- The call `Date.now()` (also the time read by `new Date()`). -/
def dateNow (env : Env) : Handler Int := do
  let w ← get
  set { w with ticks := w.ticks + 1 }
  pure (env.clock w.ticks)

/-- Awaiting `fetch(...)`: the request is recorded and the promise settles as given. -/
def awaitFetch {R : Type} (request : Request) (outcome : FetchOutcome R) :
    Handler (Response R) := do
  emit (.fetch request)
  match outcome with
  | .rejected reason => throw reason
  | .resolved response => pure response

/-- Awaiting `response.json()`. -/
def awaitJson {R : Type} (response : Response R) : Handler R :=
  match response.json with
  | .ok result => pure result
  | .error reason => throw reason

/-- The arguments of the `fetch` call of `handleManualPredict`. -/
def manualRequest (data : JSObject JSNum) : Request :=
  { url := API_ENDPOINTS_PREDICT, method := "POST",
    headers := [("Content-Type", "application/json")],
    body := .json (jsonStringify data) }

/-- The arguments of the `fetch` call of `handleCsvPredict`: a multipart form with the
single field `file`. -/
def csvRequest (csvFile : File) : Request :=
  { url := API_ENDPOINTS_PREDICT_CSV, method := "POST", headers := [],
    body := .formData [("file", csvFile)] }

/-- The function `handleManualPredict`, given how its `fetch` settles. -/
def handleManualPredict (env : Env) (outcome : FetchOutcome PredictResult) : Handler Unit := do
  let formData := (← get).view.formData
  setIsLoading true
  tryFinally
    (tryCatch
      (do
        let finalData := finalData formData
        let response ← awaitFetch (manualRequest finalData) outcome
        if !response.ok then
          throw (JSError.error ("HTTP error! status: " ++ toString response.status))
        let result ← awaitJson response
        let id ← dateNow env
        let now ← dateNow env
        setPredictions
          [ { id := JSNum.ofInt id, type := some "Manual Entry", row := none,
              result := result.attack_type, confidence := result.confidence,
              label := result.label, timestamp := some (env.toLocaleTimeString now) } ])
      (fun error => do
        emit (.consoleError "Prediction error:" error)
        emit (.alert "Error making prediction. Please check if the server is running.")))
    (setIsLoading false)

/-- The callback of `result.results.map` in `handleCsvPredict`. -/
def csvRecord (env : Env) (item : CsvResultItem) : Handler PredictionRecord := do
  let now ← dateNow env
  pure { id := jsAdd (JSNum.ofInt now) (JSNum.ofInt item.row), type := none,
         row := some item.row,
         result := item.attack_type, confidence := item.confidence,
         label := item.label, timestamp := none }

/-- The call `result.results.map(item => ...)`: the callback runs on each element in
array order. -/
def mapResults (env : Env) : List CsvResultItem → Handler (List PredictionRecord)
  | [] => pure []
  | item :: rest => do
    let record ← csvRecord env item
    let records ← mapResults env rest
    pure (record :: records)

/-- The `try` block of `handleCsvPredict`. -/
def csvTry (env : Env) (csvFile : File) (outcome : FetchOutcome CsvResult) : Handler Unit := do
  let response ← awaitFetch (csvRequest csvFile) outcome
  if !response.ok then
    throw (JSError.error ("HTTP error! status: " ++ toString response.status))
  let result ← awaitJson response
  let predictions ← mapResults env result.results
  setPredictions predictions

/-- The `catch` block of `handleCsvPredict`. -/
def csvCatch (error : JSError) : Handler Unit := do
  emit (.consoleError "CSV prediction error:" error)
  emit (.alert ("Error processing CSV file. Please check if the server is running " ++
    "and the CSV format is correct."))

/-- The function `handleCsvPredict`, given how its `fetch` settles. -/
def handleCsvPredict (env : Env) (outcome : FetchOutcome CsvResult) : Handler Unit := do
  match (← get).view.csvFile with
  | none => pure ()
  | some csvFile =>
    setIsLoading true
    tryFinally (tryCatch (csvTry env csvFile outcome) csvCatch) (setIsLoading false)

/-- The state setter `setCsvFile`; `none` is `null`. -/
def setCsvFile (file : Option File) : Handler Unit :=
  modify fun w => { w with view := { w.view with csvFile := file } }

/-- The function `handleFileUpload`, given the list `event.target.files`: the first file
is kept when there is one and its reported type is `text/csv`. -/
def handleFileUpload (files : List File) : Handler Unit :=
  match files[0]? with
  | some file => if file.type = "text/csv" then setCsvFile (some file) else pure ()
  | none => pure ()

/-- The click handler of the remove button, `() => setCsvFile(null)`. -/
def removeCsvFile : Handler Unit :=
  setCsvFile none

/-- Run a handler from a world: whether it returned or an exception escaped, and the
world it leaves. -/
def runHandler (h : Handler Unit) (w : World) : Except JSError Unit × World :=
  (ExceptT.run h).run w

/-! ## The result renderer -/

/-- The status icon of a result. -/
inductive StatusIcon where
  | checkCircle
  | xCircle
  deriving DecidableEq

/-- A template literal placeholder holding a string or `undefined`. -/
def interpolate : Option String → String
  | some s => s
  | none => "undefined"

/-- The card rendered for a record in manual mode. -/
structure ManualCard where
  key : JSNum
  icon : StatusIcon
  title : String
  confidence : JSNum
  badgeClass : String
  statusText : String
  timestamp : Option String
  deriving DecidableEq

/-- The table row rendered for a record in CSV mode. -/
structure CsvRow where
  key : JSNum
  row : Option Int
  badgeClass : String
  classification : String
  confidence : JSNum
  icon : StatusIcon
  deriving DecidableEq

/-- The callback of `predictions.map` in manual mode. -/
def renderCard (pred : PredictionRecord) : ManualCard :=
  { key := pred.id,
    icon := if pred.label = 0 then .checkCircle else .xCircle,
    title := pred.result,
    confidence := pred.confidence,
    badgeClass := "px-3 py-1 rounded-lg text-sm font-medium border " ++
      interpolate (getAttackColor pred.label),
    statusText := if pred.label = 0 then "Safe" else "Threat",
    timestamp := pred.timestamp }

/-- The callback of `predictions.map` in CSV mode. -/
def renderRow (pred : PredictionRecord) : CsvRow :=
  { key := pred.id,
    row := pred.row,
    badgeClass := "px-2 py-1 rounded-md text-xs font-medium border " ++
      interpolate (getAttackColor pred.label),
    classification := pred.result,
    confidence := pred.confidence,
    icon := if pred.label = 0 then .checkCircle else .xCircle }

/-- The body of the results section. -/
inductive ResultsView where
  | cards (cards : List ManualCard)
  | table (rows : List CsvRow)
  deriving DecidableEq

/-- The results section: rendered only when the result list is not empty, as cards in
manual mode and as a table otherwise. -/
def renderResults (s : ViewState) : Option ResultsView :=
  if s.predictions.length > 0 then
    some (match s.inputMode with
      | .manual => .cards (s.predictions.map renderCard)
      | .csv => .table (s.predictions.map renderRow))
  else none

/-- The CSV upload section: the text of the upload prompt, the name shown in the panel
of the selected file (the panel, which holds the remove button, is rendered only when a
file is selected; its size text is left out), and the submit button. -/
structure CsvUploadSection where
  uploadPrompt : String
  selectedFilePanel : Option String
  submitDisabled : Bool
  submitText : String
  deriving DecidableEq

/-- The CSV branch of the input section. -/
def renderCsvUpload (s : ViewState) : CsvUploadSection :=
  { uploadPrompt :=
      match s.csvFile with
      | some csvFile => csvFile.name
      | none => "Click to upload or drag and drop",
    selectedFilePanel := s.csvFile.map File.name,
    submitDisabled := s.csvFile.isNone || s.isLoading,
    submitText := if s.isLoading then "Processing CSV..." else "Analyze CSV Data" }

/-- The input section: the manual form (of which only the submit button is kept) or
the CSV upload section. -/
inductive InputSection where
  | manualForm (submitDisabled : Bool) (submitText : String)
  | csvUpload (upload : CsvUploadSection)
  deriving DecidableEq

/-- The input section, chosen by `inputMode === 'manual'`. -/
def renderInputSection (s : ViewState) : InputSection :=
  match s.inputMode with
  | .manual =>
    .manualForm s.isLoading (if s.isLoading then "Analyzing..." else "Predict Attack Type")
  | .csv => .csvUpload (renderCsvUpload s)

/-- The records `result.results.map(...)` builds when the first clock reading is the
reading number `t`: the element at index `i` gets the reading number `t + i`. -/
def csvRecordsFrom (env : Env) (t : Nat) : List CsvResultItem → List PredictionRecord
  | [] => []
  | item :: rest =>
    { id := jsAdd (JSNum.ofInt (env.clock t)) (JSNum.ofInt item.row), type := none,
      row := some item.row,
      result := item.attack_type, confidence := item.confidence,
      label := item.label, timestamp := none } :: csvRecordsFrom env (t + 1) rest

/-- The value a catalogue field contributes at submission: `parseFloat(value) || 0`
when the form holds a non-empty value for it, and `0` otherwise. -/
def submitted (formData : JSObject String) (name : String) : JSNum :=
  match filled formData name with
  | some value => parsedOrZero value
  | none => JSNum.zero

/-- The words of a snake_case name: the runs between underscores. -/
def splitUnderscore : List Char → List (List Char)
  | [] => [[]]
  | c :: cs =>
    if c = '_' then [] :: splitUnderscore cs
    else match splitUnderscore cs with
      | w :: ws => (c :: w) :: ws
      | [] => [[c]]

/-- A word with its first letter capitalised. -/
def capitalise : List Char → List Char
  | [] => []
  | c :: cs => c.toUpper :: cs

/-- The conversion as the specification words it (§4.1 step 1): underscores become
spaces and the first letter of each word is capitalised. Compared with `apiFieldName`
on the catalogue names. -/
def specTitleCase (name : String) : String :=
  String.mk (List.intercalate [' '] ((splitUnderscore name.toList).map capitalise))

/-! ## Lemmas on plain objects -/

namespace JSObject

theorem get_cons {α : Type} (p : String × α) (o : JSObject α) (k : String) :
    get (p :: o) k = if p.1 = k then some p.2 else get o k := by
  unfold get
  by_cases h : p.1 = k
  · simp [List.find?_cons, h]
  · have hb : (p.1 == k) = false := by simpa using h
    simp [List.find?_cons, hb, h]

theorem get_set {α : Type} (o : JSObject α) (k : String) (v : α) (k' : String) :
    (set o k v).get k' = if k = k' then some v else o.get k' := by
  induction o with
  | nil => simp [set, get_cons, get]
  | cons p rest ih =>
    obtain ⟨k0, v0⟩ := p
    by_cases h0 : k0 = k
    · subst h0
      by_cases h1 : k0 = k' <;> simp [set, get_cons, h1]
    · by_cases h1 : k0 = k'
      · subst h1
        have h2 : ¬ k = k0 := fun h => h0 h.symm
        simp [set, get_cons, h0, h2]
      · simp [set, get_cons, h0, h1, ih]

theorem mem_keys_iff {α : Type} (o : JSObject α) (k : String) :
    k ∈ keys o ↔ ∃ v, o.get k = some v := by
  induction o with
  | nil => simp [keys, get]
  | cons p rest ih =>
    by_cases h : p.1 = k
    · simp [keys, get_cons, h]
    · have h2 : ¬ k = p.1 := fun e => h e.symm
      simpa [keys, get_cons, h, h2] using ih

theorem keys_set {α : Type} (o : JSObject α) (k : String) (v : α) (k' : String) :
    k' ∈ keys (set o k v) ↔ k' = k ∨ k' ∈ keys o := by
  rw [mem_keys_iff, mem_keys_iff, get_set]
  by_cases h : k = k'
  · simp [h]
  · have h2 : ¬ k' = k := fun e => h e.symm
    simp [h, h2]

theorem nodup_keys_set {α : Type} (o : JSObject α) (k : String) (v : α)
    (h : (keys o).Nodup) : (keys (set o k v)).Nodup := by
  induction o with
  | nil => simp [set, keys]
  | cons p rest ih =>
    obtain ⟨k0, v0⟩ := p
    have hk : keys ((k0, v0) :: rest) = k0 :: keys rest := rfl
    rw [hk, List.nodup_cons] at h
    by_cases h0 : k0 = k
    · simp only [set, h0, if_true]
      have : keys ((k, v) :: rest) = k :: keys rest := rfl
      rw [this, List.nodup_cons]
      exact ⟨h0 ▸ h.1, h.2⟩
    · simp only [set, h0, if_false]
      have : keys ((k0, v0) :: set rest k v) = k0 :: keys (set rest k v) := rfl
      rw [this, List.nodup_cons]
      refine ⟨?_, ih h.2⟩
      rw [keys_set]
      rintro (e | e)
      · exact h0 e
      · exact h.1 e

/-- Reading a key from an object after a run of conditional property writes, one per
element of `fs`, when the elements write distinct keys. -/
theorem get_foldl_write {α β : Type} (key : β → String) (val : β → Option α)
    (step : JSObject α → β → JSObject α)
    (hstep : ∀ acc f, step acc f = writeOpt acc (key f) (val f)) :
    ∀ (fs : List β) (acc : JSObject α) (k : String), (fs.map key).Nodup →
      (fs.foldl step acc).get k
        = ((fs.find? (fun f => key f == k)).bind val).or (acc.get k) := by
  intro fs
  induction fs with
  | nil => intro acc k _; rfl
  | cons f rest ih =>
    intro acc k hnd
    rw [List.map_cons, List.nodup_cons] at hnd
    rw [List.foldl_cons, ih _ k hnd.2, hstep]
    by_cases hk : key f = k
    · have hnone : rest.find? (fun g => key g == k) = none := by
        rw [List.find?_eq_none]
        intro g hg
        simp only [beq_iff_eq]
        intro e
        exact hnd.1 (hk ▸ e ▸ List.mem_map_of_mem key hg)
      simp only [hnone, List.find?_cons, hk, beq_self_eq_true]
      cases hv : val f with
      | none => simp [writeOpt, hv]
      | some v => simp [writeOpt, get_set, hv]
    · have hb : (key f == k) = false := by simpa using hk
      simp only [List.find?_cons, hb]
      cases hv : val f with
      | none => simp [writeOpt]
      | some v => simp [writeOpt, get_set, hk]

theorem nodup_keys_foldl_write {α β : Type} (key : β → String) (val : β → Option α)
    (step : JSObject α → β → JSObject α)
    (hstep : ∀ acc f, step acc f = writeOpt acc (key f) (val f)) :
    ∀ (fs : List β) (acc : JSObject α), (keys acc).Nodup →
      (keys (fs.foldl step acc)).Nodup := by
  intro fs
  induction fs with
  | nil => intro acc h; exact h
  | cons f rest ih =>
    intro acc h
    rw [List.foldl_cons]
    apply ih
    rw [hstep]
    cases val f with
    | none => exact h
    | some v => exact nodup_keys_set acc (key f) v h

/-- Reading a key from `{ ...a, ...b }`: the property of `b` when it has one, else
the property of `a`. -/
theorem get_spread {α : Type} (a b : JSObject α) (k : String) (hb : (keys b).Nodup) :
    (spread a b).get k = (b.get k).or (a.get k) := by
  have h := get_foldl_write (fun p : String × α => p.1) (fun p => some p.2)
    (fun acc p => set acc p.1 p.2) (fun _ _ => rfl) b a k hb
  unfold spread
  rw [h]
  unfold get
  cases b.find? (fun p => p.1 == k) <;> rfl

end JSObject

/-! ## Lemmas on the payload builder -/

theorem jsOr_some (x b : JSNum) : jsOr (some x) b = if x.truthy then x else b := rfl

theorem jsOr_none (b : JSNum) : jsOr none b = b := rfl

theorem truthy_zero : JSNum.zero.truthy = false := by
  simp [JSNum.zero, JSNum.truthy]

theorem jsOr_zero_isNaN (a : Option JSNum) : (jsOr a JSNum.zero).isNaN = false := by
  cases a with
  | none => rfl
  | some x =>
    rw [jsOr_some]
    by_cases h : x.truthy = true
    · rw [if_pos h]
      cases x <;> first | rfl | simp [JSNum.truthy] at h
    · rw [if_neg h]; rfl

theorem jsOr_zero_idem (a : Option JSNum) :
    jsOr (some (jsOr a JSNum.zero)) JSNum.zero = jsOr a JSNum.zero := by
  cases a with
  | none => simp [jsOr_some, jsOr_none, truthy_zero]
  | some x =>
    by_cases h : x.truthy = true
    · simp [jsOr_some, h]
    · simp [jsOr_some, h, truthy_zero]

theorem jsOr_parsedOrZero (value : String) :
    jsOr (some (parsedOrZero value)) JSNum.zero = parsedOrZero value :=
  jsOr_zero_idem _

theorem parsedOrZero_isNaN (value : String) : (parsedOrZero value).isNaN = false :=
  jsOr_zero_isNaN _

theorem parsedOrZero_of_nan (value : String) (h : parseFloat value = JSNum.nan) :
    parsedOrZero value = JSNum.zero := by
  simp [parsedOrZero, jsOr_some, h, JSNum.truthy]

theorem addFeature_eq (formData : JSObject String) (acc : JSObject JSNum) (f : Feature) :
    addFeature formData acc f =
      JSObject.writeOpt acc (apiFieldName f.name) ((filled formData f.name).map parsedOrZero) := by
  unfold addFeature filled
  cases formData.get f.name with
  | none => rfl
  | some value => by_cases h : value = "" <;> simp [h, JSObject.writeOpt]

theorem buildApiData_eq (formData : JSObject String) :
    buildApiData formData = catalogue.foldl (addFeature formData) [] := rfl

theorem catalogue_keys_nodup : (catalogue.map (fun f => apiFieldName f.name)).Nodup := by
  decide

/-- Reading `apiData[k]`: the stored value of the catalogue field whose converted name
is `k`, when the form holds a value for it. -/
theorem buildApiData_get (formData : JSObject String) (k : String) :
    (buildApiData formData).get k =
      (catalogue.find? (fun f => apiFieldName f.name == k)).bind
        (fun f => (filled formData f.name).map parsedOrZero) := by
  rw [buildApiData_eq]
  rw [JSObject.get_foldl_write (fun f : Feature => apiFieldName f.name)
    (fun f => (filled formData f.name).map parsedOrZero) (addFeature formData)
    (addFeature_eq formData) catalogue [] k catalogue_keys_nodup]
  simp [JSObject.get]

theorem buildApiData_keys_nodup (formData : JSObject String) :
    (JSObject.keys (buildApiData formData)).Nodup := by
  rw [buildApiData_eq]
  exact JSObject.nodup_keys_foldl_write (fun f : Feature => apiFieldName f.name)
    (fun f => (filled formData f.name).map parsedOrZero) (addFeature formData)
    (addFeature_eq formData) catalogue [] List.nodup_nil

/-- Reading `finalData[k]`: the property of `apiData` when it has one, else the default. -/
theorem finalData_get (formData : JSObject String) (k : String) :
    (finalData formData).get k =
      ((buildApiData formData).get k).or ((defaultFields (buildApiData formData)).get k) :=
  JSObject.get_spread (defaultFields (buildApiData formData)) (buildApiData formData) k
    (buildApiData_keys_nodup formData)

theorem jsOr_filled (formData : JSObject String) (name : String) :
    jsOr ((filled formData name).map parsedOrZero) JSNum.zero = submitted formData name := by
  unfold submitted
  cases filled formData name with
  | none => rfl
  | some value => exact jsOr_parsedOrZero value

/-- Reading `apiData[k]` when `k` is the converted name of the catalogue field `f`. -/
theorem buildApiData_get_of_find (formData : JSObject String) (k : String) (f : Feature)
    (hf : catalogue.find? (fun f => apiFieldName f.name == k) = some f) :
    (buildApiData formData).get k = (filled formData f.name).map parsedOrZero := by
  rw [buildApiData_get, hf]; rfl

/-- Reading `apiData[k]` when `k` is the converted name of no catalogue field. -/
theorem buildApiData_get_of_not_find (formData : JSObject String) (k : String)
    (hk : catalogue.find? (fun f => apiFieldName f.name == k) = none) :
    (buildApiData formData).get k = none := by
  rw [buildApiData_get, hk]; rfl

/-- A key shared by `apiData` and the defaults (`Flow Duration`, `Total Fwd Packets`,
`Packet Length Mean`): the final value is the submitted value of the field. -/
theorem finalData_get_shared (formData : JSObject String) (k : String) (f : Feature)
    (hf : catalogue.find? (fun f => apiFieldName f.name == k) = some f)
    (hd : ∀ api, (defaultFields api).get k = some (jsOr (api.get k) JSNum.zero)) :
    (finalData formData).get k = some (submitted formData f.name) := by
  rw [finalData_get, hd, buildApiData_get_of_find formData k f hf, jsOr_filled]
  unfold submitted
  cases filled formData f.name <;> rfl

/-- A default key that `apiData` never holds, filled from the `apiData` key `k'`. -/
theorem finalData_get_default (formData : JSObject String) (k k' : String) (f : Feature)
    (hk : catalogue.find? (fun f => apiFieldName f.name == k) = none)
    (hf : catalogue.find? (fun f => apiFieldName f.name == k') = some f)
    (hd : ∀ api, (defaultFields api).get k = some (jsOr (api.get k') JSNum.zero)) :
    (finalData formData).get k = some (submitted formData f.name) := by
  rw [finalData_get, hd, buildApiData_get_of_not_find formData k hk,
    buildApiData_get_of_find formData k' f hf, jsOr_filled]
  rfl

theorem catalogue_find_self :
    ∀ f ∈ catalogue, catalogue.find? (fun g => apiFieldName g.name == apiFieldName f.name) = some f := by
  decide

theorem buildApiData_value_isNaN (formData : JSObject String) (k : String) (v : JSNum)
    (h : (buildApiData formData).get k = some v) : v.isNaN = false := by
  rw [buildApiData_get] at h
  simp only [Option.bind_eq_some, Option.map_eq_some'] at h
  obtain ⟨_, _, value, _, rfl⟩ := h
  exact parsedOrZero_isNaN value

theorem defaultFields_keys (apiData : JSObject JSNum) :
    JSObject.keys (defaultFields apiData) =
      ["Destination Port", "Flow Duration", "Total Fwd Packets", "Total Backward Packets",
        "Flow Bytes/s", "Flow Packets/s", "Packet Length Mean", "SYN Flag Count",
        "ACK Flag Count", "PSH Flag Count"] := rfl

theorem defaultFields_value_isNaN (apiData : JSObject JSNum) (k : String) (v : JSNum)
    (h : (defaultFields apiData).get k = some v) : v.isNaN = false := by
  unfold defaultFields at h
  simp only [JSObject.get_cons] at h
  repeat' split at h
  all_goals first
    | (cases h; first | rfl | exact jsOr_zero_isNaN _)
    | (simp [JSObject.get] at h)

/-- Whatever the outcome of the request, the first thing `handleManualPredict` does to
the outside is the `fetch` whose body is `JSON.stringify(finalData)`. -/
theorem handleManualPredict_request (env : Env) (outcome : FetchOutcome PredictResult)
    (w : World) :
    ∃ rest, (runHandler (handleManualPredict env outcome) w).2.effects =
      w.effects ++ Effect.fetch (manualRequest (finalData w.view.formData)) :: rest := by
  have hassoc : ∀ (a b c : Effect),
      ((w.effects ++ [a]) ++ [b]) ++ [c] = w.effects ++ a :: [b, c] := by
    intro a b c
    simp
  cases outcome with
  | rejected reason =>
    exact ⟨[Effect.consoleError "Prediction error:" reason,
      Effect.alert "Error making prediction. Please check if the server is running."],
      hassoc _ _ _⟩
  | resolved response =>
    obtain ⟨ok, status, json, h⟩ := response
    cases ok with
    | false =>
      exact ⟨[Effect.consoleError "Prediction error:"
          (JSError.error ("HTTP error! status: " ++ toString status)),
        Effect.alert "Error making prediction. Please check if the server is running."],
        hassoc _ _ _⟩
    | true =>
      cases json with
      | ok result => exact ⟨[], rfl⟩
      | error reason =>
        exact ⟨[Effect.consoleError "Prediction error:" reason,
          Effect.alert "Error making prediction. Please check if the server is running."],
          hassoc _ _ _⟩

theorem jsonStringify_get (o : JSObject JSNum) (k : String) :
    (jsonStringify o).get k = (o.get k).map serializeNumber := by
  induction o with
  | nil => rfl
  | cons p rest ih =>
    have hcons : jsonStringify (p :: rest) = (p.1, serializeNumber p.2) :: jsonStringify rest :=
      rfl
    rw [hcons, JSObject.get_cons, JSObject.get_cons, ih]
    by_cases h : p.1 = k <;> simp [h]

theorem serializeNumber_of_isFinite (v : JSNum) (h : v.isFinite = true) :
    ∃ q, serializeNumber v = JsonValue.number q := by
  cases v with
  | nan => simp [JSNum.isFinite] at h
  | posInf => simp [JSNum.isFinite] at h
  | negInf => simp [JSNum.isFinite] at h
  | negZero => exact ⟨0, rfl⟩
  | fin q => exact ⟨q, rfl⟩

theorem jsOr_zero_isFinite (a : Option JSNum)
    (h : ∀ x, a = some x → x.truthy = true → x.isFinite = true) :
    (jsOr a JSNum.zero).isFinite = true := by
  cases a with
  | none => rfl
  | some x =>
    rw [jsOr_some]
    by_cases ht : x.truthy = true
    · rw [if_pos ht]
      exact h x rfl ht
    · rw [if_neg ht]
      rfl

theorem parsedOrZero_isFinite (value : String)
    (h : parseFloat value ≠ JSNum.posInf ∧ parseFloat value ≠ JSNum.negInf) :
    (parsedOrZero value).isFinite = true := by
  apply jsOr_zero_isFinite
  intro x hx ht
  cases hx
  cases hp : parseFloat value with
  | nan => rw [hp] at ht; simp [JSNum.truthy] at ht
  | posInf => exact absurd hp h.1
  | negInf => exact absurd hp h.2
  | negZero => rfl
  | fin q => rfl

theorem buildApiData_value_isFinite (formData : JSObject String)
    (hfin : ∀ f ∈ catalogue, ∀ value, filled formData f.name = some value →
      parseFloat value ≠ JSNum.posInf ∧ parseFloat value ≠ JSNum.negInf)
    (k : String) (v : JSNum) (h : (buildApiData formData).get k = some v) :
    v.isFinite = true := by
  rw [buildApiData_get] at h
  simp only [Option.bind_eq_some, Option.map_eq_some'] at h
  obtain ⟨f, hfind, value, hfill, rfl⟩ := h
  exact parsedOrZero_isFinite value (hfin f (List.mem_of_find?_eq_some hfind) value hfill)

theorem defaultFields_value_isFinite (apiData : JSObject JSNum)
    (hapi : ∀ k v, apiData.get k = some v → v.isFinite = true)
    (k : String) (v : JSNum) (h : (defaultFields apiData).get k = some v) :
    v.isFinite = true := by
  unfold defaultFields at h
  simp only [JSObject.get_cons] at h
  repeat' split at h
  all_goals first
    | (cases h; first | rfl | exact jsOr_zero_isFinite _ (fun x hx _ => hapi _ x hx))
    | (simp [JSObject.get] at h)

/-- A default key that carries the submitted value of a field is written as `null` when
the field's value parses to an infinity. -/
theorem jsonStringify_null_of_infinite (formData : JSObject String) (name k value : String)
    (hget : (finalData formData).get k = some (submitted formData name))
    (hfill : filled formData name = some value)
    (hinf : parseFloat value = JSNum.posInf ∨ parseFloat value = JSNum.negInf) :
    (jsonStringify (finalData formData)).get k = some JsonValue.null := by
  have hsub : submitted formData name = parseFloat value := by
    unfold submitted
    rw [hfill]
    show parsedOrZero value = parseFloat value
    unfold parsedOrZero
    rw [jsOr_some]
    rcases hinf with h | h <;> rw [h] <;> rfl
  rw [jsonStringify_get, hget, hsub]
  rcases hinf with h | h <;> rw [h] <;> rfl

/-- Every catalogue field feeds one of the ten default keys. -/
theorem catalogue_default_key (formData : JSObject String) :
    ∀ f ∈ catalogue, ∃ k ∈ ["Destination Port", "Flow Duration", "Total Fwd Packets",
        "Total Backward Packets", "Flow Bytes/s", "Flow Packets/s", "Packet Length Mean",
        "SYN Flag Count", "ACK Flag Count", "PSH Flag Count"],
      (finalData formData).get k = some (submitted formData f.name) := by
  intro f hf
  simp only [catalogue, featureGroups, List.map_cons, List.map_nil, List.flatten_cons,
    List.flatten_nil, List.cons_append, List.nil_append, List.append_nil, List.mem_cons,
    List.mem_singleton, List.not_mem_nil, or_false] at hf
  rcases hf with rfl | rfl | rfl | rfl | rfl | rfl | rfl | rfl | rfl
  · exact ⟨"Flow Duration", by decide,
      finalData_get_shared formData "Flow Duration" _ rfl (fun _ => rfl)⟩
  · exact ⟨"Flow Bytes/s", by decide,
      finalData_get_default formData "Flow Bytes/s" "Flow Bytes S" _ rfl rfl (fun _ => rfl)⟩
  · exact ⟨"Flow Packets/s", by decide,
      finalData_get_default formData "Flow Packets/s" "Flow Packets S" _ rfl rfl (fun _ => rfl)⟩
  · exact ⟨"Total Fwd Packets", by decide,
      finalData_get_shared formData "Total Fwd Packets" _ rfl (fun _ => rfl)⟩
  · exact ⟨"Total Backward Packets", by decide,
      finalData_get_default formData "Total Backward Packets" "Total Bwd Packets" _ rfl rfl
        (fun _ => rfl)⟩
  · exact ⟨"Packet Length Mean", by decide,
      finalData_get_shared formData "Packet Length Mean" _ rfl (fun _ => rfl)⟩
  · exact ⟨"SYN Flag Count", by decide,
      finalData_get_default formData "SYN Flag Count" "Syn Flag Count" _ rfl rfl (fun _ => rfl)⟩
  · exact ⟨"ACK Flag Count", by decide,
      finalData_get_default formData "ACK Flag Count" "Ack Flag Count" _ rfl rfl (fun _ => rfl)⟩
  · exact ⟨"PSH Flag Count", by decide,
      finalData_get_default formData "PSH Flag Count" "Psh Flag Count" _ rfl rfl (fun _ => rfl)⟩

/-! ## The manual-entry payload: the claims -/

/-- C1, refuted as stated: with `flow_duration = "Infinity"` the object `finalData` holds
`Infinity` under `Flow Duration`, and the request body `JSON.stringify(finalData)` maps
`Flow Duration` to `null`, which is not a number. -/
theorem C1_request_body_counterexample :
    (finalData [("flow_duration", "Infinity")]).get "Flow Duration" = some JSNum.posInf ∧
    (manualRequest (finalData [("flow_duration", "Infinity")])).body =
      .json (jsonStringify (finalData [("flow_duration", "Infinity")])) ∧
    (jsonStringify (finalData [("flow_duration", "Infinity")])).get "Flow Duration" =
      some JsonValue.null ∧
    ¬ ∃ q, (jsonStringify (finalData [("flow_duration", "Infinity")])).get "Flow Duration" =
      some (JsonValue.number q) := by
  have hnull : (jsonStringify (finalData [("flow_duration", "Infinity")])).get "Flow Duration" =
      some JsonValue.null := by decide
  refine ⟨by decide, rfl, hnull, ?_⟩
  rintro ⟨q, hq⟩
  rw [hnull] at hq
  cases hq

/-- C1, amended: the body of the request of `handleManualPredict` is
`JSON.stringify(finalData)`. For every form-values mapping, `finalData` holds each of the
ten default keys with a Number that is not `NaN`, and the body holds each of them with
what `JSON.stringify` writes for that Number. When no present, non-empty catalogue value
parses to `Infinity` or `-Infinity`, the body maps each of the ten default keys to a
number; when one does, the body maps one of the ten default keys to `null`. For the
empty mapping the body is exactly the ten default keys, all `0`. -/
theorem C1_request_body_keys (formData : JSObject String) :
    (∀ (env : Env) (outcome : FetchOutcome PredictResult) (w : World),
      w.view.formData = formData →
      ∃ rest, (runHandler (handleManualPredict env outcome) w).2.effects =
        w.effects ++ Effect.fetch
          { url := API_ENDPOINTS_PREDICT, method := "POST",
            headers := [("Content-Type", "application/json")],
            body := .json (jsonStringify (finalData formData)) } :: rest) ∧
    (∀ k ∈ ["Destination Port", "Flow Duration", "Total Fwd Packets",
        "Total Backward Packets", "Flow Bytes/s", "Flow Packets/s", "Packet Length Mean",
        "SYN Flag Count", "ACK Flag Count", "PSH Flag Count"],
      ∃ v, (finalData formData).get k = some v ∧ v.isNaN = false ∧
        (jsonStringify (finalData formData)).get k = some (serializeNumber v)) ∧
    ((∀ f ∈ catalogue, ∀ value, filled formData f.name = some value →
        parseFloat value ≠ JSNum.posInf ∧ parseFloat value ≠ JSNum.negInf) →
      ∀ k ∈ ["Destination Port", "Flow Duration", "Total Fwd Packets",
        "Total Backward Packets", "Flow Bytes/s", "Flow Packets/s", "Packet Length Mean",
        "SYN Flag Count", "ACK Flag Count", "PSH Flag Count"],
      ∃ q, (jsonStringify (finalData formData)).get k = some (JsonValue.number q)) ∧
    (∀ f ∈ catalogue, ∀ value, filled formData f.name = some value →
      (parseFloat value = JSNum.posInf ∨ parseFloat value = JSNum.negInf) →
      ∃ k ∈ ["Destination Port", "Flow Duration", "Total Fwd Packets",
        "Total Backward Packets", "Flow Bytes/s", "Flow Packets/s", "Packet Length Mean",
        "SYN Flag Count", "ACK Flag Count", "PSH Flag Count"],
      (jsonStringify (finalData formData)).get k = some JsonValue.null) ∧
    jsonStringify (finalData []) =
      [ ("Destination Port", JsonValue.number 0), ("Flow Duration", JsonValue.number 0),
        ("Total Fwd Packets", JsonValue.number 0),
        ("Total Backward Packets", JsonValue.number 0),
        ("Flow Bytes/s", JsonValue.number 0), ("Flow Packets/s", JsonValue.number 0),
        ("Packet Length Mean", JsonValue.number 0), ("SYN Flag Count", JsonValue.number 0),
        ("ACK Flag Count", JsonValue.number 0), ("PSH Flag Count", JsonValue.number 0) ] := by
  have hkey : ∀ k ∈ ["Destination Port", "Flow Duration", "Total Fwd Packets",
      "Total Backward Packets", "Flow Bytes/s", "Flow Packets/s", "Packet Length Mean",
      "SYN Flag Count", "ACK Flag Count", "PSH Flag Count"],
      ∃ v, (finalData formData).get k = some v ∧ v.isNaN = false ∧
        ((∀ f ∈ catalogue, ∀ value, filled formData f.name = some value →
          parseFloat value ≠ JSNum.posInf ∧ parseFloat value ≠ JSNum.negInf) →
          v.isFinite = true) := by
    intro k hk
    rw [← defaultFields_keys (buildApiData formData), JSObject.mem_keys_iff] at hk
    obtain ⟨d, hd⟩ := hk
    rw [finalData_get, hd]
    cases ha : (buildApiData formData).get k with
    | none =>
      exact ⟨d, rfl, defaultFields_value_isNaN _ k d hd, fun hfin =>
        defaultFields_value_isFinite _ (buildApiData_value_isFinite formData hfin) k d hd⟩
    | some v =>
      exact ⟨v, rfl, buildApiData_value_isNaN formData k v ha, fun hfin =>
        buildApiData_value_isFinite formData hfin k v ha⟩
  refine ⟨?_, ?_, ?_, ?_, rfl⟩
  · intro env outcome w hw
    subst hw
    exact handleManualPredict_request env outcome w
  rotate_left 2
  · intro f hf value hfill hinf
    obtain ⟨k, hk, hget⟩ := catalogue_default_key formData f hf
    exact ⟨k, hk, jsonStringify_null_of_infinite formData f.name k value hget hfill hinf⟩
  · intro k hk
    obtain ⟨v, hv, hnan, _⟩ := hkey k hk
    refine ⟨v, hv, hnan, ?_⟩
    rw [jsonStringify_get, hv]
    rfl
  · intro hfin k hk
    obtain ⟨v, hv, _, hf⟩ := hkey k hk
    obtain ⟨q, hq⟩ := serializeNumber_of_isFinite v (hf hfin)
    refine ⟨q, ?_⟩
    rw [jsonStringify_get, hv]
    show some (serializeNumber v) = _
    rw [hq]

/-- C1, at a concrete form: with `flow_bytes_s = "2048"` and nothing else filled, no value
parses to an infinity, and the body maps `Flow Bytes/s` to a number. -/
theorem C1_request_body_keys_witness :
    ∃ q, (jsonStringify (finalData [("flow_bytes_s", "2048")])).get "Flow Bytes/s" =
      some (JsonValue.number q) :=
  (C1_request_body_keys [("flow_bytes_s", "2048")]).2.2.1 (by decide) "Flow Bytes/s" (by decide)

/-- C2, refuted as stated: with `flow_bytes_s = "2048"` and every other field absent
(or present and empty) the payload holds `Flow Bytes/s` equal to `2048`, not `0`; the
same for `flow_packets_s` and `Flow Packets/s`. -/
theorem C2_flow_bytes_counterexample :
    (finalData [("flow_bytes_s", "2048")]).get "Flow Bytes/s" = some (JSNum.fin 2048) ∧
    (finalData [("flow_bytes_s", "2048")]).get "Flow Bytes/s" ≠ some JSNum.zero ∧
    (finalData [("flow_duration", ""), ("flow_bytes_s", "2048"), ("flow_packets_s", ""),
        ("total_fwd_packets", ""), ("total_bwd_packets", ""), ("packet_length_mean", ""),
        ("syn_flag_count", ""), ("ack_flag_count", ""), ("psh_flag_count", "")]).get
      "Flow Bytes/s" = some (JSNum.fin 2048) ∧
    (finalData [("flow_packets_s", "100")]).get "Flow Packets/s" = some (JSNum.fin 100) := by
  refine ⟨by decide, by decide, by decide, by decide⟩

/-- C2, amended: `Flow Bytes/s` is the value submitted for `flow_bytes_s`
(`parseFloat(value) || 0` when the field is present and non-empty, `0` otherwise), and
`Flow Packets/s` is the value submitted for `flow_packets_s`. -/
theorem C2_flow_rates_follow_form (formData : JSObject String) :
    (finalData formData).get "Flow Bytes/s" = some (submitted formData "flow_bytes_s") ∧
    (finalData formData).get "Flow Packets/s" = some (submitted formData "flow_packets_s") :=
  ⟨finalData_get_default formData "Flow Bytes/s" "Flow Bytes S" _ rfl rfl (fun _ => rfl),
   finalData_get_default formData "Flow Packets/s" "Flow Packets S" _ rfl rfl (fun _ => rfl)⟩

/-- C3: when the form value of a catalogue field is a non-empty string that
`parseFloat` turns into `NaN`, the payload holds the field's converted key with the
value `0`. -/
theorem C3_unparsable_value_is_zero (formData : JSObject String) (f : Feature)
    (value : String) (hf : f ∈ catalogue) (hv : formData.get f.name = some value)
    (hne : value ≠ "") (hnan : parseFloat value = JSNum.nan) :
    (finalData formData).get (apiFieldName f.name) = some JSNum.zero ∧
    JSNum.zero.isNaN = false := by
  refine ⟨?_, rfl⟩
  have hfill : filled formData f.name = some value := by
    unfold filled
    rw [hv]
    simp [hne]
  rw [finalData_get, buildApiData_get_of_find formData _ f (catalogue_find_self f hf), hfill]
  simp [parsedOrZero_of_nan value hnan]

/-- C3, at a concrete form: `syn_flag_count = "abc"` gives `Syn Flag Count` equal to `0`. -/
theorem C3_unparsable_value_is_zero_witness :
    (finalData [("syn_flag_count", "abc")]).get "Syn Flag Count" = some JSNum.zero ∧
    JSNum.zero.isNaN = false :=
  C3_unparsable_value_is_zero [("syn_flag_count", "abc")]
    { name := "syn_flag_count", label := "SYN Flag Count", placeholder := "e.g., 1" } "abc"
    (by decide) (by decide) (by decide) (by decide)

/-- C4: `Destination Port` is always `0`, and each of the seven defaults `Flow Duration`,
`Total Fwd Packets`, `Total Backward Packets`, `Packet Length Mean`, `SYN Flag Count`,
`ACK Flag Count`, `PSH Flag Count` is the value submitted for its form field:
`parseFloat(value) || 0` when the field is present and non-empty, `0` otherwise. -/
theorem C4_defaults_follow_form (formData : JSObject String) :
    (finalData formData).get "Destination Port" = some JSNum.zero ∧
    (finalData formData).get "Flow Duration" = some (submitted formData "flow_duration") ∧
    (finalData formData).get "Total Fwd Packets" =
      some (submitted formData "total_fwd_packets") ∧
    (finalData formData).get "Total Backward Packets" =
      some (submitted formData "total_bwd_packets") ∧
    (finalData formData).get "Packet Length Mean" =
      some (submitted formData "packet_length_mean") ∧
    (finalData formData).get "SYN Flag Count" = some (submitted formData "syn_flag_count") ∧
    (finalData formData).get "ACK Flag Count" = some (submitted formData "ack_flag_count") ∧
    (finalData formData).get "PSH Flag Count" = some (submitted formData "psh_flag_count") := by
  refine ⟨?_, ?_, ?_, ?_, ?_, ?_, ?_, ?_⟩
  · rw [finalData_get, buildApiData_get_of_not_find formData "Destination Port" rfl]
    rfl
  · exact finalData_get_shared formData "Flow Duration" _ rfl (fun _ => rfl)
  · exact finalData_get_shared formData "Total Fwd Packets" _ rfl (fun _ => rfl)
  · exact finalData_get_default formData "Total Backward Packets" "Total Bwd Packets" _
      rfl rfl (fun _ => rfl)
  · exact finalData_get_shared formData "Packet Length Mean" _ rfl (fun _ => rfl)
  · exact finalData_get_default formData "SYN Flag Count" "Syn Flag Count" _
      rfl rfl (fun _ => rfl)
  · exact finalData_get_default formData "ACK Flag Count" "Ack Flag Count" _
      rfl rfl (fun _ => rfl)
  · exact finalData_get_default formData "PSH Flag Count" "Psh Flag Count" _
      rfl rfl (fun _ => rfl)

/-- C5: every catalogue field whose form value is present and non-empty puts its
converted name into the payload with the parsed value; the keys of the payload are
exactly the ten default keys and the converted names of the filled fields; and the
converted name is the snake_case name with underscores turned into spaces and each
word capitalised. -/
theorem C5_payload_keys (formData : JSObject String) :
    (∀ f ∈ catalogue, ∀ value, filled formData f.name = some value →
      (finalData formData).get (apiFieldName f.name) = some (parsedOrZero value)) ∧
    (∀ k, k ∈ JSObject.keys (finalData formData) ↔
      (k ∈ ["Destination Port", "Flow Duration", "Total Fwd Packets",
          "Total Backward Packets", "Flow Bytes/s", "Flow Packets/s", "Packet Length Mean",
          "SYN Flag Count", "ACK Flag Count", "PSH Flag Count"] ∨
        ∃ f ∈ catalogue, (filled formData f.name).isSome = true ∧ apiFieldName f.name = k)) ∧
    (∀ f ∈ catalogue, apiFieldName f.name = specTitleCase f.name) ∧
    apiFieldName "syn_flag_count" = "Syn Flag Count" ∧
    apiFieldName "total_bwd_packets" = "Total Bwd Packets" ∧
    apiFieldName "flow_bytes_s" = "Flow Bytes S" := by
  refine ⟨?_, ?_, by decide, rfl, rfl, rfl⟩
  · intro f hf value hv
    rw [finalData_get, buildApiData_get_of_find formData _ f (catalogue_find_self f hf), hv]
    rfl
  · intro k
    rw [← defaultFields_keys (buildApiData formData), JSObject.mem_keys_iff,
      JSObject.mem_keys_iff, finalData_get]
    constructor
    · rintro ⟨v, hv⟩
      cases ha : (buildApiData formData).get k with
      | none =>
        rw [ha] at hv
        exact Or.inl ⟨v, hv⟩
      | some a =>
        right
        rw [buildApiData_get] at ha
        simp only [Option.bind_eq_some, Option.map_eq_some'] at ha
        obtain ⟨f, hfind, value, hfill, _⟩ := ha
        refine ⟨f, List.mem_of_find?_eq_some hfind, ?_, ?_⟩
        · rw [hfill]; rfl
        · simpa using List.find?_some hfind
    · rintro (⟨v, hv⟩ | ⟨f, hf, hfill, rfl⟩)
      · cases ha : (buildApiData formData).get k with
        | none => exact ⟨v, by simpa using hv⟩
        | some a => exact ⟨a, rfl⟩
      · rw [buildApiData_get_of_find formData _ f (catalogue_find_self f hf)]
        obtain ⟨value, hvalue⟩ := Option.isSome_iff_exists.mp hfill
        exact ⟨parsedOrZero value, by rw [hvalue]; rfl⟩

/-- C5, at a concrete form: `syn_flag_count = "1"` adds the key `Syn Flag Count`, which
is not one of the ten default keys, with the value `1`. -/
theorem C5_payload_keys_witness :
    (finalData [("syn_flag_count", "1")]).get "Syn Flag Count" = some (JSNum.fin 1) :=
  (C5_payload_keys [("syn_flag_count", "1")]).1
    { name := "syn_flag_count", label := "SYN Flag Count", placeholder := "e.g., 1" }
    (by decide) "1" (by decide)


/-! ## Lemmas on the sum of integer Numbers -/

theorem two_pow_log2Floor_le : ∀ (fuel n : Nat), 1 ≤ n → 2 ^ log2Floor fuel n ≤ n := by
  intro fuel
  induction fuel with
  | zero => intro n hn; simpa [log2Floor] using hn
  | succ f ih =>
    intro n hn
    unfold log2Floor
    by_cases h2 : 2 ≤ n
    · rw [if_pos h2]
      have h1 : 1 ≤ n / 2 := by omega
      have := ih (n / 2) h1
      rw [pow_succ]
      omega
    · rw [if_neg h2]
      simpa using hn

theorem roundToDouble_nat (n : Nat) (h : n ≤ 2 ^ 53) : roundToDouble n 1 = .fin (n : ℚ) := by
  by_cases hn : n = 0
  · subst hn
    simp [roundToDouble]
  by_cases h53 : n = 2 ^ 53
  · subst h53
    decide
  have hlt : n < 2 ^ 53 := lt_of_le_of_ne h h53
  have hpos : 1 ≤ n := Nat.one_le_iff_ne_zero.mpr hn
  have hL := two_pow_log2Floor_le n n hpos
  have hL52 : log2Floor n n ≤ 52 := by
    by_contra hc
    have : 2 ^ 53 ≤ 2 ^ log2Floor n n := Nat.pow_le_pow_right (by norm_num) (by omega)
    omega
  obtain ⟨j, hj⟩ : ∃ j, log2Floor n n + j = 52 := ⟨52 - log2Floor n n, by omega⟩
  have h11 : log2Floor 1 1 = 0 := rfl
  have hto : ((log2Floor n n : ℕ) : ℤ).toNat = log2Floor n n := Int.toNat_natCast _
  have hneg : (-((log2Floor n n : ℕ) : ℤ)).toNat = 0 := Int.toNat_neg_nat _
  have hmax : ((log2Floor n n : ℕ) : ℤ) ⊔ -1022 = ((log2Floor n n : ℕ) : ℤ) :=
    max_eq_left (by omega)
  have hk : ((log2Floor n n : ℕ) : ℤ) - 52 = -(j : ℤ) := by omega
  have hjto : (-(j : ℤ)).toNat = 0 := Int.toNat_neg_nat _
  have hmpos : 1 ≤ n * 2 ^ j := Nat.one_le_iff_ne_zero.mpr (by positivity)
  have hM := two_pow_log2Floor_le (n * 2 ^ j) (n * 2 ^ j) hmpos
  have hMle : log2Floor (n * 2 ^ j) (n * 2 ^ j) ≤ 105 := by
    by_contra hc
    have h1 : 2 ^ 106 ≤ 2 ^ log2Floor (n * 2 ^ j) (n * 2 ^ j) :=
      Nat.pow_le_pow_right (by norm_num) (by omega)
    have h2 : 2 ^ j ≤ 2 ^ 52 := Nat.pow_le_pow_right (by norm_num) (by omega)
    have h3 : n * 2 ^ j ≤ 2 ^ 53 * 2 ^ 52 := Nat.mul_le_mul h h2
    have h4 : (2:ℕ) ^ 53 * 2 ^ 52 < 2 ^ 106 := by norm_num
    omega
  unfold roundToDouble
  simp only [hn, false_or, one_ne_zero, if_false, h11, Nat.cast_zero, sub_zero,
    sub_add_cancel, hto, hneg, pow_zero, mul_one, one_mul, hL, decide_True, if_true,
    hmax, hk, neg_neg, Int.toNat_natCast, hjto, Nat.mod_one, Nat.div_one]
  have h01 : 2 * 0 < 1 := by norm_num
  rw [if_pos h01]
  have hno : ¬ ((log2Floor (n * 2 ^ j) (n * 2 ^ j) : ℤ) + -(j : ℤ) ≥ 1024) := by omega
  rw [if_neg hno]
  congr 1
  rw [Rat.mkRat_eq_div]
  push_cast
  field_simp

theorem roundRat_intCast (z : Int) (h : |z| ≤ 2 ^ 53) : roundRat (z : ℚ) = .fin (z : ℚ) := by
  unfold roundRat
  rw [Rat.num_intCast, Rat.den_intCast]
  by_cases hz : 0 ≤ z
  · have hq : (0 : ℚ) ≤ (z : ℚ) := by exact_mod_cast hz
    rw [if_pos hq]
    have hle : z.toNat ≤ 2 ^ 53 := by
      have := abs_le.mp h
      omega
    rw [roundToDouble_nat _ hle]
    congr 1
    have : ((z.toNat : ℤ) : ℚ) = (z : ℚ) := by rw [Int.toNat_of_nonneg hz]
    exact_mod_cast this
  · have hq : ¬ (0 : ℚ) ≤ (z : ℚ) := by
      intro hc
      exact hz (by exact_mod_cast hc)
    rw [if_neg hq]
    have hle : (-z).toNat ≤ 2 ^ 53 := by
      have := abs_le.mp h
      omega
    rw [roundToDouble_nat _ hle]
    have hcast : (((-z).toNat : ℕ) : ℚ) = -(z : ℚ) := by
      have h0 : 0 ≤ -z := by omega
      have : (((-z).toNat : ℤ) : ℚ) = ((-z : ℤ) : ℚ) := by rw [Int.toNat_of_nonneg h0]
      push_cast at this
      exact_mod_cast this
    rw [hcast]
    have hne : ¬ (-(z : ℚ) = 0) := by
      intro hc
      have : (z : ℚ) = 0 := by linarith
      have : z = 0 := by exact_mod_cast this
      omega
    simp only [JSNum.neg, hne, if_false, neg_neg]

/-- The sum of two integer Numbers is exact when it is at most `2 ^ 53` in magnitude. -/
theorem jsAdd_ofInt_exact (a b : Int) (h : |a + b| ≤ 2 ^ 53) :
    jsAdd (JSNum.ofInt a) (JSNum.ofInt b) = JSNum.ofInt (a + b) := by
  show roundRat ((a : ℚ) + (b : ℚ)) = .fin ((a + b : ℤ) : ℚ)
  have : (a : ℚ) + (b : ℚ) = ((a + b : ℤ) : ℚ) := by push_cast; rfl
  rw [this]
  exact roundRat_intCast (a + b) h

/-! ## Lemmas on the handlers -/

/-- A `try`/`catch`/`finally` whose `try` block returns: the `finally` block runs on the
world the `try` block leaves. -/
theorem run_protected_ok (body : Handler Unit) (onError : JSError → Handler Unit)
    (fin : Handler Unit) (w w1 : World)
    (h : (ExceptT.run body).run w = (Except.ok (), w1)) :
    (ExceptT.run (tryFinally (tryCatch body onError) fin)).run w = (ExceptT.run fin).run w1 := by
  have h' : body w = (Except.ok (), w1) := h
  simp only [tryFinally, tryFinally', tryCatch, tryCatchThe, MonadExceptOf.tryCatch,
    ExceptT.tryCatch, ExceptT.run, ExceptT.mk, StateT.run, Functor.map, ExceptT.map, bind,
    StateT.bind, pure, StateT.pure, StateT.map, h']
  rcases hf : fin w1 with ⟨r, w2⟩
  cases r <;> rfl

/-- Running `result.results.map(...)`: it returns the records of `csvRecordsFrom` and
reads the clock once per element. -/
theorem mapResults_run (env : Env) (rs : List CsvResultItem) (w : World) :
    (ExceptT.run (mapResults env rs)).run w =
      (Except.ok (csvRecordsFrom env w.ticks rs),
        { w with ticks := w.ticks + rs.length }) := by
  induction rs generalizing w with
  | nil => rfl
  | cons item rest ih =>
    have h' : mapResults env rest { w with ticks := w.ticks + 1 } = _ :=
      ih { w with ticks := w.ticks + 1 }
    simp only [mapResults, csvRecord, dateNow, ExceptT.run, StateT.run, bind, ExceptT.bind,
      ExceptT.mk, ExceptT.bindCont, StateT.bind, pure, ExceptT.pure, StateT.pure, get, getThe,
      MonadStateOf.get, liftM, monadLift, MonadLift.monadLift, ExceptT.lift, StateT.get, set,
      StateT.set, Functor.map, StateT.map, h']
    show (Except.ok _, _) = (Except.ok _, _)
    simp only [csvRecordsFrom, List.length_cons, Prod.mk.injEq, true_and]
    congr 1
    omega

theorem csvRecordsFrom_length (env : Env) (t : Nat) (rs : List CsvResultItem) :
    (csvRecordsFrom env t rs).length = rs.length := by
  induction rs generalizing t with
  | nil => rfl
  | cons item rest ih => simp [csvRecordsFrom, ih]

theorem csvRecordsFrom_getElem? (env : Env) (t : Nat) (rs : List CsvResultItem) (i : Nat) :
    (csvRecordsFrom env t rs)[i]? = (rs[i]?).map (fun item =>
      { id := jsAdd (JSNum.ofInt (env.clock (t + i))) (JSNum.ofInt item.row), type := none,
        row := some item.row,
        result := item.attack_type, confidence := item.confidence,
        label := item.label, timestamp := none }) := by
  induction rs generalizing t i with
  | nil => simp [csvRecordsFrom]
  | cons item rest ih =>
    cases i with
    | zero => simp [csvRecordsFrom]
    | succ j =>
      simp only [csvRecordsFrom, List.getElem?_cons_succ, ih]
      have : t + 1 + j = t + (j + 1) := by omega
      rw [this]

/-- The `try` block of `handleCsvPredict` on a 2xx response whose body decodes. -/
theorem csvTry_run_success (env : Env) (file : File) (status : Nat) (rs : List CsvResultItem)
    (hok : true = true ↔ 200 ≤ status ∧ status ≤ 299) (w : World) :
    (ExceptT.run (csvTry env file (.resolved
        { ok := true, status := status, json := .ok { results := rs }, ok_iff := hok }))).run w =
      (Except.ok (),
        { view := { w.view with predictions := csvRecordsFrom env w.ticks rs },
          effects := w.effects ++ [Effect.fetch (csvRequest file)],
          ticks := w.ticks + rs.length }) := by
  have h' : mapResults env rs
      { w with effects := w.effects ++ [Effect.fetch (csvRequest file)] } = _ :=
    mapResults_run env rs { w with effects := w.effects ++ [Effect.fetch (csvRequest file)] }
  simp only [csvTry, awaitFetch, awaitJson, emit, setPredictions, ExceptT.run, StateT.run, bind,
    ExceptT.bind, ExceptT.mk, ExceptT.bindCont, StateT.bind, pure, ExceptT.pure, StateT.pure,
    get, getThe, MonadStateOf.get, liftM, monadLift, MonadLift.monadLift, ExceptT.lift,
    StateT.get, set, StateT.set, Functor.map, StateT.map, modify, modifyGet,
    MonadStateOf.modifyGet, StateT.modifyGet, Bool.not_true, Bool.false_eq_true, if_false, h']

/-- The whole of `handleCsvPredict` on a 2xx response whose body decodes, with a file
selected. -/
theorem handleCsvPredict_run_success (env : Env) (w : World) (file : File)
    (response : Response CsvResult) (rs : List CsvResultItem)
    (hfile : w.view.csvFile = some file)
    (hok : 200 ≤ response.status ∧ response.status ≤ 299)
    (hjson : response.json = .ok { results := rs }) :
    runHandler (handleCsvPredict env (.resolved response)) w =
      (Except.ok (),
        { view := { w.view with predictions := csvRecordsFrom env w.ticks rs,
                                isLoading := false },
          effects := w.effects ++ [Effect.fetch (csvRequest file)],
          ticks := w.ticks + rs.length }) := by
  obtain ⟨ok, status, json, h⟩ := response
  have hk : ok = true := h.mpr hok
  subst hk
  simp only at hjson
  subst hjson
  obtain ⟨⟨mode, fd, cf, preds, loading⟩, effs, ticks⟩ := w
  simp only at hfile
  subst hfile
  have step : runHandler (handleCsvPredict env (.resolved
        { ok := true, status := status, json := .ok { results := rs }, ok_iff := h }))
      { view := { inputMode := mode, formData := fd, csvFile := some file,
                  predictions := preds, isLoading := loading },
        effects := effs, ticks := ticks } =
      (ExceptT.run (tryFinally (tryCatch (csvTry env file (.resolved
        { ok := true, status := status, json := .ok { results := rs }, ok_iff := h }))
          csvCatch) (setIsLoading false))).run
        { view := { inputMode := mode, formData := fd, csvFile := some file,
                    predictions := preds, isLoading := true },
          effects := effs, ticks := ticks } := rfl
  rw [step, run_protected_ok _ _ _ _ _ (csvTry_run_success env file status rs h _)]
  rfl

/-- A response that is not 2xx has `ok` false. -/
theorem Response.ok_false {R : Type} (response : Response R)
    (h : ¬ (200 ≤ response.status ∧ response.status ≤ 299)) : response.ok = false := by
  cases hb : response.ok with
  | false => rfl
  | true => exact absurd (response.ok_iff.mp hb) h

/-! ## Lemmas on the attack-type catalogue -/

theorem attackTypesGet_mem (label : Int) (entry : AttackType)
    (h : attackTypesGet label = some entry) : (label, entry) ∈ attackTypes := by
  unfold attackTypesGet at h
  simp only [Option.map_eq_some'] at h
  obtain ⟨p, hp, rfl⟩ := h
  have hk : p.1 = label := by simpa using List.find?_some hp
  have hm := List.mem_of_find?_eq_some hp
  rw [← hk]
  exact hm

theorem attackTypes_colors :
    ∀ p ∈ attackTypes, (colors.get p.2.color).isSome = true ∧ colors.get p.2.color ≠ some "" := by
  decide

theorem attackTypes_green : ∀ p ∈ attackTypes, p.2.color = "green" → p.1 = 0 := by
  decide

theorem attackTypes_labels : ∀ p ∈ attackTypes, 0 ≤ p.1 ∧ p.1 ≤ 14 := by
  decide

theorem getAttackColor_of_entry (label : Int) (entry : AttackType)
    (h : attackTypesGet label = some entry) :
    getAttackColor label = strOr (colors.get entry.color) (colors.get "green") := by
  simp [getAttackColor, h]

theorem getAttackColor_of_none (label : Int) (h : attackTypesGet label = none) :
    getAttackColor label = some "text-green-400 bg-green-400/10 border-green-400/20" := by
  simp only [getAttackColor, h]
  rfl

/-! ## Severity colour, result records and rendering: the claims -/

/-- C6: for a label of the catalogue `getAttackColor` returns the style class of the
colour the catalogue assigns to it; the catalogue has an entry for every integer label
from 0 to 14, and label 0 is its only green entry; for a label outside the catalogue the
result is the green style class; the result is always a non-empty string. -/
theorem C6_getAttackColor (label : Int) :
    (∀ entry, attackTypesGet label = some entry →
      ∃ cls, colors.get entry.color = some cls ∧ getAttackColor label = some cls) ∧
    (0 ≤ label ∧ label ≤ 14 → ∃ entry, attackTypesGet label = some entry) ∧
    (∀ entry, attackTypesGet label = some entry → entry.color = "green" → label = 0) ∧
    (attackTypesGet label = none → getAttackColor label = colors.get "green") ∧
    (∃ cls, getAttackColor label = some cls ∧ cls ≠ "") ∧
    getAttackColor 0 = some "text-green-400 bg-green-400/10 border-green-400/20" ∧
    getAttackColor 10 = some "text-yellow-400 bg-yellow-400/10 border-yellow-400/20" ∧
    colors.get "green" = some "text-green-400 bg-green-400/10 border-green-400/20" := by
  have hentry : ∀ entry, attackTypesGet label = some entry →
      ∃ cls, colors.get entry.color = some cls ∧ getAttackColor label = some cls ∧ cls ≠ "" := by
    intro entry h
    obtain ⟨hsome, hne⟩ := attackTypes_colors _ (attackTypesGet_mem label entry h)
    obtain ⟨cls, hcls⟩ := Option.isSome_iff_exists.mp hsome
    have hcls' : colors.get entry.color = some cls := hcls
    have hne' : cls ≠ "" := by
      intro e
      apply hne
      show colors.get entry.color = some ""
      rw [hcls', e]
    refine ⟨cls, hcls', ?_, hne'⟩
    rw [getAttackColor_of_entry label entry h, hcls']
    simp [strOr, hne']
  refine ⟨?_, ?_, ?_, ?_, ?_, rfl, rfl, rfl⟩
  · intro entry h
    obtain ⟨cls, h1, h2, _⟩ := hentry entry h
    exact ⟨cls, h1, h2⟩
  · rintro ⟨h0, h14⟩
    interval_cases label <;> exact ⟨_, rfl⟩
  · intro entry h hg
    exact attackTypes_green _ (attackTypesGet_mem label entry h) hg
  · intro h
    rw [getAttackColor_of_none label h]
    rfl
  · cases h : attackTypesGet label with
    | none => exact ⟨_, getAttackColor_of_none label h, by decide⟩
    | some entry =>
      obtain ⟨cls, _, h2, h3⟩ := hentry entry h
      exact ⟨cls, h2, h3⟩

/-- C6, at concrete labels: label 10 is in the catalogue and gets the yellow class;
label 15 is outside the catalogue and gets the green class. -/
theorem C6_getAttackColor_witness :
    (∃ cls, colors.get "yellow" = some cls ∧ getAttackColor 10 = some cls) ∧
    getAttackColor 15 = colors.get "green" :=
  ⟨(C6_getAttackColor 10).1 { name := "PortScan", color := "yellow" } rfl,
   (C6_getAttackColor 15).2.2.2.1 rfl⟩

/-- C7: a 2xx `/predict` response whose body decodes to `{ attack_type, confidence, label }`
makes `handleManualPredict` return normally and sets the result list to exactly one
record, of type `Manual Entry`, carrying the response's `attack_type` (as `result`),
`confidence` and `label`, whatever the result list held before. -/
theorem C7_manual_success_single_record (env : Env) (w : World)
    (response : Response PredictResult) (result : PredictResult)
    (hok : 200 ≤ response.status ∧ response.status ≤ 299)
    (hjson : response.json = .ok result) :
    (runHandler (handleManualPredict env (.resolved response)) w).1 = .ok () ∧
    (runHandler (handleManualPredict env (.resolved response)) w).2.view.predictions =
      [ { id := JSNum.ofInt (env.clock w.ticks), type := some "Manual Entry", row := none,
          result := result.attack_type, confidence := result.confidence,
          label := result.label,
          timestamp := some (env.toLocaleTimeString (env.clock (w.ticks + 1))) } ] := by
  obtain ⟨ok, status, json, h⟩ := response
  have hk : ok = true := h.mpr hok
  subst hk
  simp only at hjson
  subst hjson
  exact ⟨rfl, rfl⟩

/-- C7, at the response `{ attack_type: "PortScan", confidence: 92, label: 10 }` with two
records already in the result list: the list becomes one record with label 10. -/
theorem C7_manual_success_single_record_witness :
    (runHandler
      (handleManualPredict { clock := fun n => 1700000000000 + n, toLocaleTimeString := fun _ => "10:15:00 AM" }
        (.resolved { ok := true, status := 200,
                     json := .ok { attack_type := "PortScan", confidence := .fin 92, label := 10 },
                     ok_iff := by decide }))
      { view := { inputMode := .manual, formData := [], csvFile := none,
                  predictions :=
                    [ { id := .fin 1, type := none, row := some 1, result := "BENIGN",
                        confidence := .fin 99, label := 0, timestamp := none },
                      { id := .fin 2, type := none, row := some 2, result := "DDoS",
                        confidence := .fin 87, label := 2, timestamp := none } ],
                  isLoading := false },
        effects := [], ticks := 0 }).2.view.predictions =
      [ { id := .fin 1700000000000, type := some "Manual Entry", row := none,
          result := "PortScan", confidence := .fin 92, label := 10,
          timestamp := some "10:15:00 AM" } ] :=
  (C7_manual_success_single_record
    { clock := fun n => 1700000000000 + n, toLocaleTimeString := fun _ => "10:15:00 AM" }
    _ { ok := true, status := 200,
        json := .ok { attack_type := "PortScan", confidence := .fin 92, label := 10 },
        ok_iff := by decide }
    { attack_type := "PortScan", confidence := .fin 92, label := 10 }
    (by decide) rfl).2

/-- C8: the status text of a manual card is `Safe` exactly when the record's label is 0
and `Threat` for every other label; label 0 comes with the green severity class and
label 10 with the yellow one. -/
theorem C8_status_text (pred : PredictionRecord) :
    ((renderCard pred).statusText = "Safe" ↔ pred.label = 0) ∧
    (pred.label ≠ 0 → (renderCard pred).statusText = "Threat") ∧
    (pred.label = 0 →
      (renderCard pred).statusText = "Safe" ∧
      (renderCard pred).badgeClass = "px-3 py-1 rounded-lg text-sm font-medium border " ++
        "text-green-400 bg-green-400/10 border-green-400/20") ∧
    (pred.label = 10 →
      (renderCard pred).statusText = "Threat" ∧
      (renderCard pred).badgeClass = "px-3 py-1 rounded-lg text-sm font-medium border " ++
        "text-yellow-400 bg-yellow-400/10 border-yellow-400/20") ∧
    (∀ s : ViewState, s.inputMode = .manual → s.predictions = [pred] →
      renderResults s = some (.cards [renderCard pred])) := by
  refine ⟨?_, ?_, ?_, ?_, ?_⟩
  · by_cases h : pred.label = 0
    · simp [renderCard, h]
    · simp [renderCard, h]
  · intro h
    simp [renderCard, h]
  · intro h
    constructor
    · simp [renderCard, h]
    · simp only [renderCard, h]
      rfl
  · intro h
    constructor
    · simp [renderCard, h]
    · simp only [renderCard, h]
      rfl
  · intro s hmode hpreds
    simp [renderResults, hmode, hpreds]

/-- C8, at the record built from `{ attack_type: "PortScan", confidence: 92, label: 10 }`:
status text `Threat` and the yellow class. -/
theorem C8_status_text_witness :
    (renderCard { id := .fin 1700000000000, type := some "Manual Entry", row := none,
                  result := "PortScan", confidence := .fin 92, label := 10,
                  timestamp := some "10:15:00 AM" }).statusText = "Threat" ∧
    (renderCard { id := .fin 1700000000000, type := some "Manual Entry", row := none,
                  result := "PortScan", confidence := .fin 92, label := 10,
                  timestamp := some "10:15:00 AM" }).badgeClass =
      "px-3 py-1 rounded-lg text-sm font-medium border " ++
        "text-yellow-400 bg-yellow-400/10 border-yellow-400/20" :=
  (C8_status_text { id := .fin 1700000000000, type := some "Manual Entry", row := none,
                    result := "PortScan", confidence := .fin 92, label := 10,
                    timestamp := some "10:15:00 AM" }).2.2.2.1 rfl

/-- C9, refuted as stated: with the clock at `1700000000001` and a single result whose
`row` is `2 ^ 53`, the record's `id` is `9008899254740992`, which is not the current time
plus the row (`9008899254740993`): the sum of the two Numbers is rounded to the nearest
double. -/
theorem C9_csv_id_counterexample :
    (runHandler
      (handleCsvPredict { clock := fun _ => 1700000000001, toLocaleTimeString := fun _ => "" }
        (.resolved { ok := true, status := 200,
                     json := .ok { results :=
                       [ { row := 9007199254740992, attack_type := "BENIGN",
                           confidence := .fin 99, label := 0 } ] },
                     ok_iff := by decide }))
      { view := { inputMode := .csv, formData := [],
                  csvFile := some { name := "flows.csv", type := "text/csv", size := 64 },
                  predictions := [], isLoading := false },
        effects := [], ticks := 0 }).2.view.predictions =
      [ { id := .fin 9008899254740992, type := none, row := some 9007199254740992,
          result := "BENIGN", confidence := .fin 99, label := 0, timestamp := none } ] ∧
    JSNum.fin 9008899254740992 ≠ JSNum.ofInt (1700000000001 + 9007199254740992) := by
  constructor
  · rw [handleCsvPredict_run_success _ _ { name := "flows.csv", type := "text/csv", size := 64 }
      _ [ { row := 9007199254740992, attack_type := "BENIGN", confidence := .fin 99,
            label := 0 } ] rfl (by decide) rfl]
    have hsum : jsAdd (JSNum.ofInt 1700000000001) (JSNum.ofInt 9007199254740992) =
        JSNum.fin 9008899254740992 := by
      show roundRat (((1700000000001 : ℤ) : ℚ) + ((9007199254740992 : ℤ) : ℚ)) = _
      have hq : ((1700000000001 : ℤ) : ℚ) + ((9007199254740992 : ℤ) : ℚ) =
          ((9008899254740993 : ℤ) : ℚ) := by norm_num
      rw [hq]
      unfold roundRat
      rw [Rat.num_intCast, Rat.den_intCast, if_pos (by norm_num)]
      decide
    show [ ({ id := jsAdd (JSNum.ofInt 1700000000001) (JSNum.ofInt 9007199254740992),
              type := none, row := some 9007199254740992, result := "BENIGN",
              confidence := .fin 99, label := 0, timestamp := none } : PredictionRecord) ] = _
    rw [hsum]
  · intro h
    have hq : (9008899254740992 : ℚ) = ((1700000000001 + 9007199254740992 : ℤ) : ℚ) :=
      JSNum.fin.inj h
    norm_num at hq

/-- C9, amended: with a file selected, a 2xx `/predict_csv` response whose body decodes to
`{ results }` makes `handleCsvPredict` return normally and sets the result list to one
record per element of `results`, in array order: the record at index `i` carries the
`row`, `attack_type` (as `result`), `confidence` and `label` of the element at index `i`,
and its `id` is the Number sum of the clock reading taken for that element and the
element's `row`, which is the double nearest to the exact sum and is the exact sum
whenever that is at most `2 ^ 53` in magnitude. In CSV mode the table has one row per
element, in the same order. -/
theorem C9_csv_success_records (env : Env) (w : World) (file : File)
    (response : Response CsvResult) (rs : List CsvResultItem)
    (hfile : w.view.csvFile = some file)
    (hok : 200 ≤ response.status ∧ response.status ≤ 299)
    (hjson : response.json = .ok { results := rs }) :
    (runHandler (handleCsvPredict env (.resolved response)) w).1 = .ok () ∧
    (runHandler (handleCsvPredict env (.resolved response)) w).2.view.predictions.length =
      rs.length ∧
    (∀ i : Nat,
      (runHandler (handleCsvPredict env (.resolved response)) w).2.view.predictions[i]? =
        (rs[i]?).map (fun item =>
          { id := jsAdd (JSNum.ofInt (env.clock (w.ticks + i))) (JSNum.ofInt item.row),
            type := none, row := some item.row,
            result := item.attack_type, confidence := item.confidence,
            label := item.label, timestamp := none })) ∧
    (∀ (i : Nat) (item : CsvResultItem), rs[i]? = some item →
      |env.clock (w.ticks + i) + item.row| ≤ 2 ^ 53 →
      (runHandler (handleCsvPredict env (.resolved response)) w).2.view.predictions[i]? =
        some { id := JSNum.ofInt (env.clock (w.ticks + i) + item.row),
               type := none, row := some item.row,
               result := item.attack_type, confidence := item.confidence,
               label := item.label, timestamp := none }) ∧
    (w.view.inputMode = .csv → rs ≠ [] →
      ∃ rows,
        renderResults (runHandler (handleCsvPredict env (.resolved response)) w).2.view =
          some (.table rows) ∧
        rows.length = rs.length ∧
        ∀ i : Nat, (rows[i]?).map CsvRow.row = (rs[i]?).map (fun item => some item.row)) := by
  rw [handleCsvPredict_run_success env w file response rs hfile hok hjson]
  refine ⟨rfl, csvRecordsFrom_length env w.ticks rs, csvRecordsFrom_getElem? env w.ticks rs,
    ?_, ?_⟩
  · intro i item hitem hbound
    show (csvRecordsFrom env w.ticks rs)[i]? = _
    rw [csvRecordsFrom_getElem?, hitem]
    simp only [Option.map_some']
    rw [jsAdd_ofInt_exact _ _ hbound]
  intro hmode hne
  refine ⟨(csvRecordsFrom env w.ticks rs).map renderRow, ?_, ?_, ?_⟩
  · have hlen : 0 < (csvRecordsFrom env w.ticks rs).length := by
      rw [csvRecordsFrom_length]
      exact List.length_pos.mpr hne
    simp only [renderResults, hmode]
    rw [if_pos hlen]
  · rw [List.length_map, csvRecordsFrom_length]
  · intro i
    rw [List.getElem?_map, csvRecordsFrom_getElem?]
    cases rs[i]? <;> rfl

/-- C9, at `results = [{row:1, attack_type:"BENIGN", confidence:99, label:0},
{row:2, attack_type:"DDoS", confidence:87, label:2}]` in CSV mode with the clock at
`1700000000000`: the second record has `row` 2 and the exact `id` `1700000000003`, and
the table has two rows, row 1 then row 2. -/
theorem C9_csv_success_records_witness :
    ((runHandler
      (handleCsvPredict { clock := fun n => 1700000000000 + n, toLocaleTimeString := fun _ => "" }
        (.resolved { ok := true, status := 200,
                     json := .ok { results :=
                       [ { row := 1, attack_type := "BENIGN", confidence := .fin 99, label := 0 },
                         { row := 2, attack_type := "DDoS", confidence := .fin 87, label := 2 } ] },
                     ok_iff := by decide }))
      { view := { inputMode := .csv, formData := [],
                  csvFile := some { name := "flows.csv", type := "text/csv", size := 64 },
                  predictions := [], isLoading := false },
        effects := [], ticks := 0 }).2.view.predictions[1]? =
      some { id := JSNum.ofInt 1700000000003, type := none, row := some 2,
             result := "DDoS", confidence := .fin 87, label := 2, timestamp := none }) ∧
    (∃ rows,
      renderResults (runHandler
        (handleCsvPredict { clock := fun n => 1700000000000 + n, toLocaleTimeString := fun _ => "" }
          (.resolved { ok := true, status := 200,
                       json := .ok { results :=
                         [ { row := 1, attack_type := "BENIGN", confidence := .fin 99, label := 0 },
                           { row := 2, attack_type := "DDoS", confidence := .fin 87, label := 2 } ] },
                       ok_iff := by decide }))
        { view := { inputMode := .csv, formData := [],
                    csvFile := some { name := "flows.csv", type := "text/csv", size := 64 },
                    predictions := [], isLoading := false },
          effects := [], ticks := 0 }).2.view = some (.table rows) ∧
      rows.length = 2 ∧
      ∀ i : Nat, (rows[i]?).map CsvRow.row =
        (([ { row := 1, attack_type := "BENIGN", confidence := .fin 99, label := 0 },
            { row := 2, attack_type := "DDoS", confidence := .fin 87, label := 2 } ] :
          List CsvResultItem)[i]?).map (fun item => some item.row)) :=
  ⟨(C9_csv_success_records
      { clock := fun n => 1700000000000 + n, toLocaleTimeString := fun _ => "" }
      { view := { inputMode := .csv, formData := [],
                  csvFile := some { name := "flows.csv", type := "text/csv", size := 64 },
                  predictions := [], isLoading := false },
        effects := [], ticks := 0 }
      { name := "flows.csv", type := "text/csv", size := 64 }
      { ok := true, status := 200,
        json := .ok { results :=
          [ { row := 1, attack_type := "BENIGN", confidence := .fin 99, label := 0 },
            { row := 2, attack_type := "DDoS", confidence := .fin 87, label := 2 } ] },
        ok_iff := by decide }
      [ { row := 1, attack_type := "BENIGN", confidence := .fin 99, label := 0 },
        { row := 2, attack_type := "DDoS", confidence := .fin 87, label := 2 } ]
      rfl (by decide) rfl).2.2.2.1 1
      { row := 2, attack_type := "DDoS", confidence := .fin 87, label := 2 } rfl (by decide),
   (C9_csv_success_records
      { clock := fun n => 1700000000000 + n, toLocaleTimeString := fun _ => "" }
      { view := { inputMode := .csv, formData := [],
                  csvFile := some { name := "flows.csv", type := "text/csv", size := 64 },
                  predictions := [], isLoading := false },
        effects := [], ticks := 0 }
      { name := "flows.csv", type := "text/csv", size := 64 }
      { ok := true, status := 200,
        json := .ok { results :=
          [ { row := 1, attack_type := "BENIGN", confidence := .fin 99, label := 0 },
            { row := 2, attack_type := "DDoS", confidence := .fin 87, label := 2 } ] },
        ok_iff := by decide }
      [ { row := 1, attack_type := "BENIGN", confidence := .fin 99, label := 0 },
        { row := 2, attack_type := "DDoS", confidence := .fin 87, label := 2 } ]
      rfl (by decide) rfl).2.2.2.2 rfl (by decide)⟩

/-- C10: when the response is not 2xx, `handleManualPredict` returns normally, leaves the
result list (and every other state variable but the loading flag) as it was, ends with
the loading flag false, and has shown an alert; the same holds for `handleCsvPredict`
when a file is selected. -/
theorem C10_non2xx_keeps_results (env : Env) (w : World) :
    (∀ response : Response PredictResult,
      ¬ (200 ≤ response.status ∧ response.status ≤ 299) →
      (runHandler (handleManualPredict env (.resolved response)) w).1 = .ok () ∧
      (runHandler (handleManualPredict env (.resolved response)) w).2.view.predictions =
        w.view.predictions ∧
      (runHandler (handleManualPredict env (.resolved response)) w).2.view.isLoading = false ∧
      (runHandler (handleManualPredict env (.resolved response)) w).2.view =
        { w.view with isLoading := false } ∧
      (runHandler (handleManualPredict env (.resolved response)) w).2.effects =
        w.effects ++
          [ Effect.fetch (manualRequest (finalData w.view.formData)),
            Effect.consoleError "Prediction error:"
              (JSError.error ("HTTP error! status: " ++ toString response.status)),
            Effect.alert "Error making prediction. Please check if the server is running." ]) ∧
    (∀ (response : Response CsvResult) (file : File),
      ¬ (200 ≤ response.status ∧ response.status ≤ 299) →
      w.view.csvFile = some file →
      (runHandler (handleCsvPredict env (.resolved response)) w).1 = .ok () ∧
      (runHandler (handleCsvPredict env (.resolved response)) w).2.view.predictions =
        w.view.predictions ∧
      (runHandler (handleCsvPredict env (.resolved response)) w).2.view.isLoading = false ∧
      (runHandler (handleCsvPredict env (.resolved response)) w).2.view =
        { w.view with isLoading := false } ∧
      (runHandler (handleCsvPredict env (.resolved response)) w).2.effects =
        w.effects ++
          [ Effect.fetch (csvRequest file),
            Effect.consoleError "CSV prediction error:"
              (JSError.error ("HTTP error! status: " ++ toString response.status)),
            Effect.alert ("Error processing CSV file. Please check if the server is running " ++
              "and the CSV format is correct.") ]) := by
  constructor
  · intro response hbad
    have hk := Response.ok_false response hbad
    obtain ⟨ok, status, json, h⟩ := response
    simp only at hk
    subst hk
    refine ⟨rfl, rfl, rfl, rfl, ?_⟩
    show ((w.effects ++ _) ++ _) ++ _ = _
    simp
  · intro response file hbad hfile
    have hk := Response.ok_false response hbad
    obtain ⟨ok, status, json, h⟩ := response
    simp only at hk
    subst hk
    obtain ⟨⟨mode, fd, cf, preds, loading⟩, effs, ticks⟩ := w
    simp only at hfile
    subst hfile
    refine ⟨rfl, rfl, rfl, rfl, ?_⟩
    show ((effs ++ _) ++ _) ++ _ = _
    simp

/-- C10, at a 500 response to `/predict` and a 404 response to `/predict_csv`, with
records in the result list: the records stay and the loading flag ends false. -/
theorem C10_non2xx_keeps_results_witness :
    ((runHandler
      (handleManualPredict { clock := fun n => 1700000000000 + n, toLocaleTimeString := fun _ => "" }
        (.resolved { ok := false, status := 500,
                     json := .error (JSError.rejection "Unexpected token"),
                     ok_iff := by decide }))
      { view := { inputMode := .manual, formData := [("flow_duration", "0.5")], csvFile := none,
                  predictions :=
                    [ { id := .fin 1, type := none, row := some 1, result := "BENIGN",
                        confidence := .fin 99, label := 0, timestamp := none },
                      { id := .fin 2, type := none, row := some 2, result := "DDoS",
                        confidence := .fin 87, label := 2, timestamp := none } ],
                  isLoading := false },
        effects := [], ticks := 0 }).2.view.predictions =
      [ { id := .fin 1, type := none, row := some 1, result := "BENIGN",
          confidence := .fin 99, label := 0, timestamp := none },
        { id := .fin 2, type := none, row := some 2, result := "DDoS",
          confidence := .fin 87, label := 2, timestamp := none } ]) ∧
    ((runHandler
      (handleCsvPredict { clock := fun n => 1700000000000 + n, toLocaleTimeString := fun _ => "" }
        (.resolved { ok := false, status := 404, json := .ok { results := [] },
                     ok_iff := by decide }))
      { view := { inputMode := .csv, formData := [],
                  csvFile := some { name := "flows.csv", type := "text/csv", size := 64 },
                  predictions :=
                    [ { id := .fin 7, type := some "Manual Entry", row := none, result := "Bot",
                        confidence := .fin 61, label := 1, timestamp := some "9:00:00 AM" } ],
                  isLoading := false },
        effects := [], ticks := 0 }).2.view.isLoading = false) :=
  ⟨((C10_non2xx_keeps_results
      { clock := fun n => 1700000000000 + n, toLocaleTimeString := fun _ => "" }
      _).1
      { ok := false, status := 500, json := .error (JSError.rejection "Unexpected token"),
        ok_iff := by decide }
      (by decide)).2.1,
   ((C10_non2xx_keeps_results
      { clock := fun n => 1700000000000 + n, toLocaleTimeString := fun _ => "" }
      _).2
      { ok := false, status := 404, json := .ok { results := [] }, ok_iff := by decide }
      { name := "flows.csv", type := "text/csv", size := 64 }
      (by decide) rfl).2.2.1⟩

/-! ## File selection: the claim -/

/-- C11: from any state, selecting a file whose reported type is `text/csv` and then
invoking the remove action (offered in the panel of the selected file) leaves no
selected file; the CSV submit button is then
disabled (it is disabled exactly when no file is selected or the loading flag is set),
the upload prompt shows the click-to-upload text and no file panel is rendered, and
`handleCsvPredict` returns without a request and without a state change. -/
theorem C11_select_then_remove (env : Env) (w : World) (file : File) (others : List File)
    (outcome : FetchOutcome CsvResult) (htype : file.type = "text/csv") :
    (runHandler (handleFileUpload (file :: others)) w).2.view.csvFile = some file ∧
    (renderCsvUpload (runHandler (handleFileUpload (file :: others)) w).2.view).selectedFilePanel =
      some file.name ∧
    (runHandler removeCsvFile (runHandler (handleFileUpload (file :: others)) w).2).2 =
      { w with view := { w.view with csvFile := none } } ∧
    (renderCsvUpload { w.view with csvFile := none }).submitDisabled = true ∧
    (renderCsvUpload { w.view with csvFile := none }).uploadPrompt =
      "Click to upload or drag and drop" ∧
    (renderCsvUpload { w.view with csvFile := none }).selectedFilePanel = none ∧
    (w.view.inputMode = .csv →
      renderInputSection { w.view with csvFile := none } =
        .csvUpload (renderCsvUpload { w.view with csvFile := none })) ∧
    runHandler (handleCsvPredict env outcome) { w with view := { w.view with csvFile := none } } =
      (.ok (), { w with view := { w.view with csvFile := none } }) ∧
    (∀ s : ViewState,
      (renderCsvUpload s).submitDisabled = true ↔ s.csvFile = none ∨ s.isLoading = true) := by
  have hupload : handleFileUpload (file :: others) = setCsvFile (some file) := by
    simp [handleFileUpload, htype]
  rw [hupload]
  refine ⟨rfl, rfl, rfl, rfl, rfl, rfl, ?_, rfl, ?_⟩
  · intro hmode
    simp only [renderInputSection, hmode]
  · intro s
    cases hf : s.csvFile <;> cases hl : s.isLoading <;> simp [renderCsvUpload, hf, hl]

/-- C11, at a concrete state: a file `flows.csv` of type `text/csv` is selected over an
earlier one and then removed, in CSV mode with one record in the result list. -/
theorem C11_select_then_remove_witness :
    (runHandler removeCsvFile
      (runHandler
        (handleFileUpload [{ name := "flows.csv", type := "text/csv", size := 2048 }])
        { view := { inputMode := .csv, formData := [],
                    csvFile := some { name := "old.csv", type := "text/csv", size := 10 },
                    predictions :=
                      [ { id := .fin 1, type := none, row := some 1, result := "BENIGN",
                          confidence := .fin 99, label := 0, timestamp := none } ],
                    isLoading := false },
          effects := [], ticks := 0 }).2).2 =
      { view := { inputMode := .csv, formData := [], csvFile := none,
                  predictions :=
                    [ { id := .fin 1, type := none, row := some 1, result := "BENIGN",
                        confidence := .fin 99, label := 0, timestamp := none } ],
                  isLoading := false },
        effects := [], ticks := 0 } :=
  (C11_select_then_remove
    { clock := fun n => 1700000000000 + n, toLocaleTimeString := fun _ => "" }
    { view := { inputMode := .csv, formData := [],
                csvFile := some { name := "old.csv", type := "text/csv", size := 10 },
                predictions :=
                  [ { id := .fin 1, type := none, row := some 1, result := "BENIGN",
                      confidence := .fin 99, label := 0, timestamp := none } ],
                isLoading := false },
      effects := [], ticks := 0 }
    { name := "flows.csv", type := "text/csv", size := 2048 } []
    (.rejected (JSError.rejection "offline")) rfl).2.2.1

end Prediction
